import Mathlib

/-!
# train-line-bot: conversation state machine and route search

A shallow embedding of `src/app.js` (the per-user conversation state machine and the
message formatters) and of `src/ekispert-api.js` (station resolution, operator and line
listing, route search with its filter, ranking and rendering).

Conventions of the embedding.

* A JavaScript string is a Lean `String`; `===` on strings is equality.
* A property that may be missing (`undefined`) is an `Option`.
* An `async` function that may throw returns `Except JsError _`; `try`/`catch` is a `match`
  on that result.  The calls that leave the process (`axios.get`) are fields of `Api`: the
  answer of the routing API is a parameter of every definition that awaits it.
* `processUserInput` mutates the session object in place and ends in one
  `client.pushMessage` call; the embedding returns the session after the call together with
  the list of messages handed to `pushMessage`.  The chat transport is outside the
  embedding: the delivery itself is not modelled.
* An object of an array answered by the routing API has an identity of its own; where the
  code compares objects (`indexOf`), a candidate is paired with its position in the answer.
-/

namespace TrainLineBot

/-! ## Errors -/

/-- A thrown JavaScript value: an `Error` made with `new Error(message)` or rejected by the
HTTP client, or the `TypeError` raised when a property is read from `undefined`. -/
inductive JsError where
  | error (message : String)
  | typeError (property : String)
  deriving DecidableEq, Repr

/-- The single quotation mark the engine writes around a property name. -/
def singleQuote : String := String.singleton (Char.ofNat 39)

/-- The `message` property of a thrown error.  The text of a `TypeError` is the one the
engine gives, with the property name between single quotation marks; only the property name
varies. -/
def JsError.message : JsError → String
  | .error m => m
  | .typeError p =>
    "Cannot read properties of undefined (reading " ++ singleQuote ++ p ++ singleQuote ++ ")"

/-! ## `src/app.js`: session and state names -/

namespace STATE

def IDLE : String := "IDLE"
def INPUT_DEPARTURE : String := "INPUT_DEPARTURE"
def INPUT_DESTINATION : String := "INPUT_DESTINATION"
def INPUT_DATE : String := "INPUT_DATE"
def INPUT_DEPARTURE_TIME : String := "INPUT_DEPARTURE_TIME"
def INPUT_ARRIVAL_TIME : String := "INPUT_ARRIVAL_TIME"
def SELECT_RAILWAY : String := "SELECT_RAILWAY"
def SELECT_ROUTE : String := "SELECT_ROUTE"

end STATE

/-- The `data` object of a session: the answers captured so far.  `{}` is the value with
every property missing. -/
structure UserData where
  departure : Option String := none
  destination : Option String := none
  date : Option String := none
  departureTime : Option String := none
  arrivalTime : Option String := none
  selectedRailway : Option String := none
  selectedRoute : Option String := none
  deriving DecidableEq, Repr

/-- One entry of `userStates`: `{ state, data }`. -/
structure Session where
  state : String
  data : UserData
  deriving DecidableEq, Repr

/-- The session `handleEvent` creates for a user seen for the first time. -/
def initialSession : Session := { state := STATE.IDLE, data := {} }

/-! ## `src/app.js`: messages -/

/-- The object `{ type: 'message', label, text }`. -/
structure Action where
  type : String
  label : String
  text : String
  deriving DecidableEq, Repr

/-- The object `{ type: 'button', action }` built for every option of a menu. -/
structure Button where
  type : String
  action : Action
  deriving DecidableEq, Repr

/-- The `template` property of a menu message. -/
structure Template where
  type : String
  text : String
  actions : List Button
  deriving DecidableEq, Repr

/-- A message handed to the chat transport: `{ type: 'text', text }` or
`{ type: 'template', altText, template }`. -/
inductive Message where
  | text (text : String)
  | template (altText : String) (template : Template)
  deriving DecidableEq, Repr

/-- An operator or a line as listed for a menu: `{ id, name }`. -/
structure Railway where
  id : String
  name : String
  deriving DecidableEq, Repr

/-- One rendered search result: `{ title, description, details }`. -/
structure RouteResult where
  title : String
  description : String
  details : String
  deriving DecidableEq, Repr

/-- The argument `items.slice(0, 4)`, and `slice(0, 3)` further down: the first `n` elements. -/
def slice (l : List α) (n : Nat) : List α := l.take n

/-- Source: `createRailwaySelectionMessage` of `src/app.js`. -/
def createRailwaySelectionMessage (railways : List Railway) : Message :=
  let items := railways.map fun railway =>
    ({ type := "button",
       action := { type := "message", label := railway.name, text := railway.name } } : Button)
  Message.template "鉄道会社を選択してください"
    { type := "buttons",
      text := "利用する鉄道会社を選択してください",
      actions := slice items 4 }

/-- Source: `createRouteSelectionMessage` of `src/app.js`. -/
def createRouteSelectionMessage (routes : List Railway) : Message :=
  let items := routes.map fun route =>
    ({ type := "button",
       action := { type := "message", label := route.name, text := route.name } } : Button)
  Message.template "路線を選択してください"
    { type := "buttons",
      text := "利用する路線を選択してください",
      actions := slice items 4 }

/-- Source: `createRouteResultsMessage` of `src/app.js`: the summary message followed by one
text message per route. -/
def createRouteResultsMessage (routes : List RouteResult) : List Message :=
  Message.text "以下の3つのルートがオススメです！乗り鉄を楽しんでください！" ::
    routes.map fun route =>
      Message.text (route.title ++ "\n" ++ route.description ++ "\n\n" ++ route.details)

/-! ## `src/app.js`: the state machine -/

/-- The three functions `processUserInput` awaits.  `src/app.js` declares placeholder
versions of them and `src/ekispert-api.js` the ones that query the routing API; the state
machine is the same over either. -/
structure Services where
  fetchAvailableRailways : UserData → Except JsError (List Railway)
  fetchRoutesByRailway : String → Except JsError (List Railway)
  fetchTimeConsumingRoutes : UserData → Except JsError (List RouteResult)

/-- Source: `processUserInput` of `src/app.js`.  The result is the session after the call and
the messages of the one `pushMessage` call made. -/
def processUserInput (svc : Services) (userState : Session) (userInput : String) :
    Session × List Message :=
  if userInput = "出発" then
    ({ state := STATE.INPUT_DEPARTURE, data := {} },
     [Message.text "出発駅を入力してください"])
  else if userState.state = STATE.INPUT_DEPARTURE then
    ({ state := STATE.INPUT_DESTINATION,
       data := { userState.data with departure := some userInput } },
     [Message.text "目的駅を入力してください"])
  else if userState.state = STATE.INPUT_DESTINATION then
    ({ state := STATE.INPUT_DATE,
       data := { userState.data with destination := some userInput } },
     [Message.text "出発日を入力してください（例: 2023-03-08）"])
  else if userState.state = STATE.INPUT_DATE then
    ({ state := STATE.INPUT_DEPARTURE_TIME,
       data := { userState.data with date := some userInput } },
     [Message.text "出発時刻を入力してください（例: 10:00）"])
  else if userState.state = STATE.INPUT_DEPARTURE_TIME then
    ({ state := STATE.INPUT_ARRIVAL_TIME,
       data := { userState.data with departureTime := some userInput } },
     [Message.text "到着時刻を入力してください（例: 18:00）"])
  else if userState.state = STATE.INPUT_ARRIVAL_TIME then
    let data := { userState.data with arrivalTime := some userInput }
    match svc.fetchAvailableRailways data with
    | .ok railways =>
      ({ state := STATE.SELECT_RAILWAY, data := data },
       [createRailwaySelectionMessage railways])
    | .error _ =>
      ({ state := STATE.IDLE, data := data },
       [Message.text "鉄道会社の取得に失敗しました。もう一度お試しください。"])
  else if userState.state = STATE.SELECT_RAILWAY then
    let data := { userState.data with selectedRailway := some userInput }
    match svc.fetchRoutesByRailway userInput with
    | .ok routes =>
      ({ state := STATE.SELECT_ROUTE, data := data },
       [createRouteSelectionMessage routes])
    | .error _ =>
      ({ state := STATE.IDLE, data := data },
       [Message.text "路線の取得に失敗しました。もう一度お試しください。"])
  else if userState.state = STATE.SELECT_ROUTE then
    let data := { userState.data with selectedRoute := some userInput }
    match svc.fetchTimeConsumingRoutes data with
    | .ok timeConsumingRoutes =>
      ({ state := STATE.IDLE, data := data },
       createRouteResultsMessage timeConsumingRoutes)
    | .error _ =>
      ({ state := STATE.IDLE, data := data },
       [Message.text "ルートの取得に失敗しました。もう一度お試しください。"])
  else
    (userState, [Message.text "「出発」と入力して、旅行計画を始めましょう！"])

/-- The sessions reached by handling the texts one after another, the first text first: the
session after each text, in order. -/
def sessionsAfter (svc : Services) : Session → List String → List Session
  | _, [] => []
  | s, t :: ts =>
    let s1 := (processUserInput svc s t).1
    s1 :: sessionsAfter svc s1 ts

/-! ## `src/ekispert-api.js`: responses of the routing API -/

/-- A value of the routing API that is a single object or an array, by cardinality. -/
inductive OneOrMany (α : Type) where
  | one (value : α)
  | many (values : List α)
  deriving DecidableEq, Repr

/-- The normalisation `if (!Array.isArray(x)) { x = [x]; }`. -/
def OneOrMany.toArray : OneOrMany α → List α
  | .one value => [value]
  | .many values => values

/-- The body `{ ResultSet }` of an answer. -/
structure Body (ρ : Type) where
  ResultSet : Option ρ

/-- The answer `{ data }` of `axios.get`. -/
structure Response (ρ : Type) where
  data : Option (Body ρ)

/-- The test `response.data && response.data.ResultSet && response.data.ResultSet.X` followed
by the read of `X`: the value of `X` when all three are present. -/
def Response.resultOf (response : Response ρ) (field : ρ → Option β) : Option β :=
  match response.data with
  | none => none
  | some body =>
    match body.ResultSet with
    | none => none
    | some resultSet => field resultSet

/-- The object `{ code }` under `Point.Station`. -/
structure StationCode where
  code : String
  deriving DecidableEq, Repr

/-- One match of the station search: `{ Station: { code } }`. -/
structure Point where
  Station : StationCode
  deriving DecidableEq, Repr

/-- The `ResultSet` of the station search. -/
structure StationResultSet where
  Point : Option (OneOrMany Point)

/-- An entry of the operator listing or of the line listing: `{ id, Name }`. -/
structure Named where
  id : String
  Name : String
  deriving DecidableEq, Repr

/-- The `ResultSet` of the operator listing. -/
structure CorporationResultSet where
  Corporation : Option (OneOrMany Named)

/-- The `ResultSet` of the line listing. -/
structure LineResultSet where
  Line : Option (OneOrMany Named)

/-- A station of a segment, or of a route end: `{ Name }`. -/
structure Station where
  Name : String
  deriving DecidableEq, Repr

/-- The operator of a segment: `{ Name }`. -/
structure Corporation where
  Name : String
  deriving DecidableEq, Repr

/-- A segment of a candidate: `{ Corporation, Name, Station }`, the operator being optional
and `Station` the array of the stations passed. -/
structure Line where
  Corporation : Option Corporation
  Name : String
  Station : List Station
  deriving DecidableEq, Repr

/-- The departure or the arrival of a candidate: `{ Station: { Name }, Time }`. -/
structure Terminal where
  Station : Station
  Time : String
  deriving DecidableEq, Repr

/-- The `Route` of a candidate.  `timeOnBoard` is the number of minutes on board, taken to
be an integer, and may be missing.  An integer stands for the number the engine holds, which
is the integer itself up to 2^53 in absolute value. -/
structure Route where
  Line : List Line
  Departure : Terminal
  Arrival : Terminal
  timeOnBoard : Option Int
  deriving DecidableEq, Repr

/-- The `Price` of a candidate: `{ Fare }`. -/
structure Price where
  Fare : String
  deriving DecidableEq, Repr

/-- A candidate of the search: `{ Route, Price }`, the price being optional. -/
structure Course where
  Route : Route
  Price : Option Price
  deriving DecidableEq, Repr

/-- The `ResultSet` of the route search. -/
structure CourseResultSet where
  Course : Option (OneOrMany Course)

/-- The object `searchParams` of `fetchTimeConsumingRoutes`; `from_` and `to_` are its
properties `from` and `to`. -/
structure SearchParams where
  key : String
  from_ : String
  to_ : String
  date : String
  time : String
  searchType : String
  plane : String
  shinkansen : String
  limitedExpress : String
  sort : String
  count : Nat
  deriving DecidableEq, Repr

/-- The routing API as the code sees it: the key sent with every request and, for each of the
four `axios.get` calls, the answer or the error the call rejects with. -/
structure Api where
  ekispertApiKey : String
  station : Option String → Except JsError (Response StationResultSet)
  corporation : Except JsError (Response CorporationResultSet)
  railway : String → Except JsError (Response LineResultSet)
  search : SearchParams → Except JsError (Response CourseResultSet)

/-! ## `src/app.js`: the placeholder services -/

/-- Source: `fetchAvailableRailways` of `src/app.js`, which returns fixed data. -/
def fetchAvailableRailways (_userData : UserData) : Except JsError (List Railway) :=
  .ok [{ id := "1", name := "JR東日本" },
       { id := "2", name := "東京メトロ" },
       { id := "3", name := "東急電鉄" }]

/-- Source: `fetchRoutesByRailway` of `src/app.js`, which returns fixed data. -/
def fetchRoutesByRailway (_railwayName : String) : Except JsError (List Railway) :=
  .ok [{ id := "101", name := "山手線" },
       { id := "102", name := "中央線" },
       { id := "103", name := "総武線" }]

/-- Source: `fetchTimeConsumingRoutes` of `src/app.js`, which returns fixed data. -/
def fetchTimeConsumingRoutes (_userData : UserData) : Except JsError (List RouteResult) :=
  .ok [{ title := "ルート1: 山手線一周コース",
         description := "出発: 東京 → 目的: 東京, 所要時間: 1時間30分",
         details := "東京 → 新橋 → 品川 → 大崎 → 五反田 → 目黒 → 恵比寿 → 渋谷 → ... → 東京" },
       { title := "ルート2: 中央線往復コース",
         description := "出発: 東京 → 目的: 東京, 所要時間: 3時間",
         details := "東京 → 神田 → 御茶ノ水 → 四ツ谷 → 新宿 → 中野 → ... → 高尾 → ... → 東京" },
       { title := "ルート3: 総武線・横須賀線コース",
         description := "出発: 東京 → 目的: 東京, 所要時間: 4時間",
         details := "東京 → 新橋 → 品川 → 横浜 → ... → 千葉 → ... → 東京" }]

/-- The services as `src/app.js` declares them. -/
def placeholderServices : Services :=
  { fetchAvailableRailways := fetchAvailableRailways,
    fetchRoutesByRailway := fetchRoutesByRailway,
    fetchTimeConsumingRoutes := fetchTimeConsumingRoutes }

/-! ## `src/ekispert-api.js` -/

namespace Ekispert

/-- The text a template literal gives for a value: the string, or `undefined` when the value
is missing. -/
def templateText (value : Option String) : String := value.getD "undefined"

/-- The method call `value.replace(...)` and the like on a property of `userData`: a
`TypeError` when the property is missing. -/
def required (method : String) : Option String → Except JsError String
  | some value => .ok value
  | none => .error (.typeError method)

/-- The call `s.replace` with a global pattern of one character `c` (a hyphen in the source)
and the empty string: every occurrence of `c` removed. -/
def removeAll (c : Char) (s : String) : String := String.mk (s.toList.filter (· ≠ c))

/-- The call `s.replace` with a one-character string `c` (a colon in the source) and the
empty string: the first occurrence of `c` removed. -/
def removeFirst (c : Char) (s : String) : String := String.mk (s.toList.erase c)

/-- The UTF-16 code units of a string, which JavaScript compares strings by. -/
def codeUnits (s : String) : List Nat :=
  s.toList.flatMap fun c =>
    if c.toNat < 0x10000 then [c.toNat]
    else [0xD800 + (c.toNat - 0x10000) / 0x400, 0xDC00 + (c.toNat - 0x10000) % 0x400]

/-- Lexicographic `≤` on code units, a proper initial segment being smaller. -/
def unitsLe : List Nat → List Nat → Bool
  | [], _ => true
  | _ :: _, [] => false
  | a :: as, b :: bs => if a < b then true else if b < a then false else unitsLe as bs

/-- The operator `<=` of JavaScript on two strings. -/
def strLe (a b : String) : Bool := unitsLe (codeUnits a) (codeUnits b)

/-- Source: `getStationCode`. -/
def getStationCode (api : Api) (stationName : Option String) : Except JsError String :=
  match api.station stationName with
  | .error error => .error error
  | .ok response =>
    match response.resultOf (·.Point) with
    | some point =>
      match point.toArray with
      | station :: _ => .ok station.Station.code
      | [] => .error (.error ("Station \"" ++ templateText stationName ++ "\" not found"))
    | none => .error (.error ("Station \"" ++ templateText stationName ++ "\" not found"))

/-- Source: `fetchAvailableRailways`. -/
def fetchAvailableRailways (api : Api) (userData : UserData) :
    Except JsError (List Railway) :=
  match getStationCode api userData.departure with
  | .error error => .error error
  | .ok _departureStation =>
    match getStationCode api userData.destination with
    | .error error => .error error
    | .ok _destinationStation =>
      match api.corporation with
      | .error error => .error error
      | .ok response =>
        match response.resultOf (·.Corporation) with
        | some corporations =>
          .ok (corporations.toArray.map fun corp => { id := corp.id, name := corp.Name })
        | none => .ok []

/-- Source: `fetchRoutesByRailway`. -/
def fetchRoutesByRailway (api : Api) (railwayName : String) :
    Except JsError (List Railway) :=
  match fetchAvailableRailways api {} with
  | .error error => .error error
  | .ok corporations =>
    match corporations.find? fun corp => corp.name == railwayName with
    | none => .error (.error ("Railway company \"" ++ railwayName ++ "\" not found"))
    | some corporation =>
      match api.railway corporation.id with
      | .error error => .error error
      | .ok response =>
        match response.resultOf (·.Line) with
        | some lines => .ok (lines.toArray.map fun line => { id := line.id, name := line.Name })
        | none => .ok []

/-! ### The route search -/

/-- A candidate together with its identity as an object: its position in the array of the
answer.  `indexOf` compares objects by identity, not by content. -/
abbrev CourseRef := Nat × Course

/-- The test `course.Route.Line.some(line => line.Corporation && line.Corporation.Name ===
railwayName)`. -/
def includesSelectedRailway (railwayName : Option String) (course : Course) : Bool :=
  course.Route.Line.any fun line =>
    match line.Corporation with
    | some corporation => decide (some corporation.Name = railwayName)
    | none => false

/-- The test `course.Route.Line.some(line => line.Name === routeName)`. -/
def includesSelectedRoute (routeName : Option String) (course : Course) : Bool :=
  course.Route.Line.any fun line => decide (some line.Name = routeName)

/-- The test `course.Route.Arrival.Time <= arrivalTime`. -/
def isWithinTimeRange (arrivalTime : String) (course : Course) : Bool :=
  strLe course.Route.Arrival.Time arrivalTime

/-- The callback of `courses.filter`. -/
def keepsCourse (railwayName routeName : Option String) (arrivalTime : String)
    (course : Course) : Bool :=
  includesSelectedRailway railwayName course && includesSelectedRoute routeName course &&
    isWithinTimeRange arrivalTime course

/-- The array `filteredCourses`. -/
def filterCourses (railwayName routeName : Option String) (arrivalTime : String)
    (courses : List CourseRef) : List CourseRef :=
  courses.filter fun course => keepsCourse railwayName routeName arrivalTime course.2

/-- The first decimal digit of `n`, reached in at most `fuel` divisions by 10. -/
def leadingDigitAux : Nat → Nat → Nat
  | 0, n => n
  | fuel + 1, n => if n < 10 then n else leadingDigitAux fuel (n / 10)

/-- The first decimal digit of a natural number. -/
def leadingDigit (n : Nat) : Nat := leadingDigitAux n n

/-- The function `parseInt` applied to a number that is an integer.  The number is first
turned into its text: plain decimal digits below 10^21 in absolute value, which read back as
the integer itself, and the exponent form from there on (`1e+21` for 10^21), of which
`parseInt` reads the sign and the one digit in front of the point or of the `e`. -/
def parseInt (n : Int) : Int :=
  if n.natAbs < 1000000000000000000000 then n else n.sign * (leadingDigit n.natAbs : Int)

/-- The value `course.Route.timeOnBoard || 0`: 0 for a missing value and for 0. -/
def timeOrZero (course : Course) : Int :=
  match course.Route.timeOnBoard with
  | some minutes => if minutes = 0 then 0 else minutes
  | none => 0

/-- The value `parseInt(course.Route.timeOnBoard || 0)`. -/
def timeOf (course : Course) : Int := parseInt (timeOrZero course)

/-- The comparator `(a, b) => timeB - timeA` handed to `sort`. -/
def compareTime (a b : CourseRef) : Int := timeOf b.2 - timeOf a.2

/-- The method `Array.prototype.sort` with a comparator: a stable sort that puts `a` before
`b` when `compare a b` is negative and keeps the order of the two when it is zero. -/
def sort (compare : α → α → Int) (l : List α) : List α :=
  l.insertionSort fun a b => compare a b ≤ 0

/-- The array `sortedCourses`. -/
def sortCourses (courses : List CourseRef) : List CourseRef := sort compareTime courses

/-- The method `indexOf` on an array of objects: the position of the first element that is
the same object, `-1` when there is none. -/
def indexOf (l : List CourseRef) (course : CourseRef) : Int :=
  match l.findIdx? fun other => other.1 == course.1 with
  | some i => i
  | none => -1

/-- The callback of `course.Route.Line.map`: the text of one segment.  Reading `Name` from
`line.Station[0]` throws when the segment has no station. -/
def segmentText (line : Line) : Except JsError String :=
  match line.Station.head?, line.Station.getLast? with
  | some fromStation, some toStation =>
    .ok (fromStation.Name ++ " [" ++ line.Name ++ "] → " ++ toStation.Name)
  | _, _ => .error (.typeError "Name")

/-- The array `course.Route.Line.map(...)`, built from the first segment on. -/
def segmentTexts : List Line → Except JsError (List String)
  | [] => .ok []
  | line :: rest =>
    match segmentText line with
    | .error error => .error error
    | .ok text =>
      match segmentTexts rest with
      | .error error => .error error
      | .ok texts => .ok (text :: texts)

/-- The string `routeDetails`: the segment texts joined by an arrow. -/
def routeDetails (lines : List Line) : Except JsError String :=
  match segmentTexts lines with
  | .error error => .error error
  | .ok texts => .ok (" → ".intercalate texts)

/-- The text `time.substring(0, 2)` followed by a colon and `time.substring(2)`.  The split
is by characters, which is the split by code units for the digits of a clock time. -/
def clockText (time : String) : String := time.take 2 ++ ":" ++ time.drop 2

/-- The decimal digits of a natural number without the zeros at its end. -/
def significantDigits (n : Nat) : List Char :=
  ((Nat.toDigits 10 n).reverse.dropWhile (· == '0')).reverse

/-- The text of a number that is an integer, as a template literal prints it: the decimal
digits below 10^21 in absolute value, the exponent form from there on (`1e+21` for 10^21).
In the exponent form the digits are those of the integer, where the engine prints the
shortest digits that read back as the number. -/
def numberText (n : Int) : String :=
  if n.natAbs < 1000000000000000000000 then toString n
  else
    (if n < 0 then "-" else "") ++
    (match significantDigits n.natAbs with
     | [] => "0"
     | [d] => String.singleton d
     | d :: rest => String.singleton d ++ "." ++ String.mk rest) ++
    "e+" ++ toString ((Nat.toDigits 10 n.natAbs).length - 1)

/-- The value `course.Route.timeOnBoard || '不明'` as put in the template literal. -/
def timeRequired (course : Course) : String :=
  match course.Route.timeOnBoard with
  | some minutes => if minutes = 0 then "不明" else numberText minutes
  | none => "不明"

/-- The value `course.Price ? course.Price.Fare : '不明'`. -/
def fare (course : Course) : String :=
  match course.Price with
  | some price => price.Fare
  | none => "不明"

/-- The callback of `sortedCourses.slice(0, 3).map`: one rendered result. -/
def renderCourse (sortedCourses : List CourseRef) (course : CourseRef) :
    Except JsError RouteResult :=
  match routeDetails course.2.Route.Line with
  | .error error => .error error
  | .ok details =>
    .ok { title := "ルート" ++ toString (indexOf sortedCourses course + 1) ++ ": " ++
            course.2.Route.Departure.Station.Name ++ "→" ++ course.2.Route.Arrival.Station.Name,
          description := "出発: " ++ clockText course.2.Route.Departure.Time ++ " → 到着: " ++
            clockText course.2.Route.Arrival.Time ++ ", 所要時間: " ++ timeRequired course.2 ++
            "分, 運賃: " ++ fare course.2 ++ "円",
          details := details }

/-- The array `sortedCourses.slice(0, 3).map(...)`, built from the first element on. -/
def renderCourses (sortedCourses : List CourseRef) :
    List CourseRef → Except JsError (List RouteResult)
  | [] => .ok []
  | course :: rest =>
    match renderCourse sortedCourses course with
    | .error error => .error error
    | .ok result =>
      match renderCourses sortedCourses rest with
      | .error error => .error error
      | .ok results => .ok (result :: results)

/-- The candidates kept for display: `sortedCourses.slice(0, 3)` for the candidates of an
answer, each with its position in the answer as identity. -/
def rankCourses (railwayName routeName : Option String) (arrivalTime : String)
    (courses : List Course) : List CourseRef :=
  slice (sortCourses (filterCourses railwayName routeName arrivalTime courses.enum)) 3

/-- What `fetchTimeConsumingRoutes` does with the answer of the search: the results for the
candidates when the answer has a candidate list, the empty array when it has none. -/
def resultsOfResponse (railwayName routeName : Option String) (arrivalTime : String)
    (response : Response CourseResultSet) : Except JsError (List RouteResult) :=
  match response.resultOf (·.Course) with
  | some found =>
    let courses := found.toArray.enum
    let filteredCourses := filterCourses railwayName routeName arrivalTime courses
    let sortedCourses := sortCourses filteredCourses
    renderCourses sortedCourses (slice sortedCourses 3)
  | none => .ok []

/-- The object `searchParams`. -/
def searchParams (api : Api) (departureStationCode destinationStationCode date
    departureTime : String) : SearchParams :=
  { key := api.ekispertApiKey,
    from_ := departureStationCode,
    to_ := destinationStationCode,
    date := date,
    time := departureTime,
    searchType := "departure",
    plane := "false",
    shinkansen := "false",
    limitedExpress := "false",
    sort := "time",
    count := 10 }

/-- The `try` block of `fetchTimeConsumingRoutes`: the value it returns, or what it throws. -/
def fetchTimeConsumingRoutesTry (api : Api) (userData : UserData) :
    Except JsError (List RouteResult) :=
  match getStationCode api userData.departure with
  | .error error => .error error
  | .ok departureStationCode =>
    match getStationCode api userData.destination with
    | .error error => .error error
    | .ok destinationStationCode =>
      match required "replace" userData.date with
      | .error error => .error error
      | .ok rawDate =>
        match required "replace" userData.departureTime with
        | .error error => .error error
        | .ok rawDepartureTime =>
          match required "replace" userData.arrivalTime with
          | .error error => .error error
          | .ok rawArrivalTime =>
            let date := removeAll '-' rawDate
            let departureTime := removeFirst ':' rawDepartureTime
            let arrivalTime := removeFirst ':' rawArrivalTime
            match api.search (searchParams api departureStationCode destinationStationCode
                date departureTime) with
            | .error error => .error error
            | .ok response =>
              resultsOfResponse userData.selectedRailway userData.selectedRoute arrivalTime
                response

/-- The array the `catch` block of `fetchTimeConsumingRoutes` returns. -/
def fallbackRoutes (error : JsError) : List RouteResult :=
  [{ title := "ルート例: 東京→横浜",
     description := "申し訳ありませんが、指定された条件での経路検索に失敗しました。",
     details := "APIエラー: " ++ error.message }]

/-- Source: `fetchTimeConsumingRoutes`.  Whatever the `try` block throws is caught, and the
`catch` block returns an array, so the function itself never throws. -/
def fetchTimeConsumingRoutes (api : Api) (userData : UserData) :
    Except JsError (List RouteResult) :=
  match fetchTimeConsumingRoutesTry api userData with
  | .ok results => .ok results
  | .error error => .ok (fallbackRoutes error)

/-- The services as `src/ekispert-api.js` declares them, over a routing API. -/
def services (api : Api) : Services :=
  { fetchAvailableRailways := fetchAvailableRailways api,
    fetchRoutesByRailway := fetchRoutesByRailway api,
    fetchTimeConsumingRoutes := fetchTimeConsumingRoutes api }

end Ekispert

/-! ## Observations and sample data -/

/-- The selectable actions of a message: the `actions` of a menu, none for a text. -/
def Message.actions : Message → List Button
  | .text _ => []
  | .template _ menu => menu.actions

/-- A routing API that cannot be reached: every request is rejected. -/
def unreachableApi : Api :=
  { ekispertApiKey := "key",
    station := fun _ => .error (.error "Network Error"),
    corporation := .error (.error "Network Error"),
    railway := fun _ => .error (.error "Network Error"),
    search := fun _ => .error (.error "Network Error") }

/-- Six options for a menu. -/
def sixOptions : List Railway :=
  [{ id := "1", name := "A" }, { id := "2", name := "B" }, { id := "3", name := "C" },
   { id := "4", name := "D" }, { id := "5", name := "E" }, { id := "6", name := "F" }]

/-- The three conditions of the filter on a candidate, as the specification words them:
some segment is run by the selected operator, some segment is on the selected line, and the
arrival time is at most the bound. -/
def MatchesQuery (railwayName routeName : Option String) (arrivalTime : String)
    (course : Course) : Prop :=
  (∃ line ∈ course.Route.Line, ∃ corporation,
      line.Corporation = some corporation ∧ some corporation.Name = railwayName) ∧
  (∃ line ∈ course.Route.Line, some line.Name = routeName) ∧
  Ekispert.strLe course.Route.Arrival.Time arrivalTime = true

/-- A candidate of one segment from 東京 to 横浜 leaving at 10:00, with the given operator,
line, arrival time and minutes on board. -/
def sampleCourse (operator line arrival : String) (minutes : Option Int) : Course :=
  { Route :=
      { Line := [{ Corporation := some { Name := operator }, Name := line,
                   Station := [{ Name := "東京" }, { Name := "川崎" }, { Name := "横浜" }] }],
        Departure := { Station := { Name := "東京" }, Time := "1000" },
        Arrival := { Station := { Name := "横浜" }, Time := arrival },
        timeOnBoard := minutes },
    Price := none }

/-- Three raw candidates of which only the second has operator X, line Y and an arrival by
18:00. -/
def threeCandidates : List Course :=
  [sampleCourse "Z" "Y" "1700" (some 50),
   sampleCourse "X" "Y" "1730" (some 40),
   sampleCourse "X" "Y" "1830" (some 90)]

/-- Four candidates with 30, 90, 90 and 60 minutes on board, in that order. -/
def fourTimes : List Ekispert.CourseRef :=
  [sampleCourse "X" "Y" "1730" (some 30),
   sampleCourse "X" "Y" "1730" (some 90),
   sampleCourse "X" "Y" "1730" (some 90),
   sampleCourse "X" "Y" "1730" (some 60)].enum

/-- Two candidates: the first without minutes on board, the second with 0 minutes. -/
def missingThenZero : List Ekispert.CourseRef :=
  [sampleCourse "X" "Y" "1730" none, sampleCourse "X" "Y" "1730" (some 0)].enum

/-- Two candidates: the first without minutes on board, the second with 45 minutes. -/
def missingThenPositive : List Ekispert.CourseRef :=
  [sampleCourse "X" "Y" "1730" none, sampleCourse "X" "Y" "1730" (some 45)].enum

/-- The answer of the station search with one match. -/
def stationFound : Response StationResultSet :=
  { data := some { ResultSet := some { Point := some (.one { Station := { code := "22828" } }) } } }

/-- A routing API that resolves every station and gives the stated answer to the search. -/
def sampleApi (answer : Except JsError (Response CourseResultSet)) : Api :=
  { ekispertApiKey := "key",
    station := fun _ => .ok stationFound,
    corporation := .ok { data := none },
    railway := fun _ => .ok { data := none },
    search := fun _ => answer }

/-- The fields of a session at the end of a cycle, for operator X and line Y. -/
def sampleUserData : UserData :=
  { departure := some "東京", destination := some "横浜", date := some "2023-03-08",
    departureTime := some "10:00", arrivalTime := some "18:00",
    selectedRailway := some "X", selectedRoute := some "Y" }

/-- An answer of the search whose `ResultSet` has no `Course`. -/
def noCandidateList : Response CourseResultSet :=
  { data := some { ResultSet := some { Course := none } } }

/-- An answer of the search whose `ResultSet.Course` is the stated array. -/
def candidateList (courses : List Course) : Response CourseResultSet :=
  { data := some { ResultSet := some { Course := some (.many courses) } } }

/-- Five candidates that all match operator X, line Y and arrive by 18:00. -/
def fiveCandidates : List Course :=
  [sampleCourse "X" "Y" "1700" (some 50),
   sampleCourse "X" "Y" "1730" (some 40),
   sampleCourse "X" "Y" "1745" (some 90),
   sampleCourse "X" "Y" "1750" none,
   sampleCourse "X" "Y" "1800" (some 70)]

/-- The sessions the state machine can be in: the session of a user seen for the first time,
and every session got from one of these by handling one more text.  Each text is handled
with services of its own, so every awaited call is free to succeed or to fail. -/
inductive Reachable : Session → Prop where
  | initial : Reachable initialSession
  | step (svc : Services) (s : Session) (text : String) :
      Reachable s → Reachable (processUserInput svc s text).1

/-- The read `data[name]` of a captured field by its name. -/
def UserData.lookup (data : UserData) (name : String) : Option String :=
  if name = "departure" then data.departure
  else if name = "destination" then data.destination
  else if name = "date" then data.date
  else if name = "departureTime" then data.departureTime
  else if name = "arrivalTime" then data.arrivalTime
  else if name = "selectedRailway" then data.selectedRailway
  else if name = "selectedRoute" then data.selectedRoute
  else none

/-- What holds of the fields in each input state: exactly the answers of the earlier states
of the cycle are captured, and no other field is. -/
def FieldsFollowState (s : Session) : Prop :=
  (s.state = STATE.INPUT_DEPARTURE → s.data = {}) ∧
  (s.state = STATE.INPUT_DESTINATION → ∃ a, s.data = { departure := some a }) ∧
  (s.state = STATE.INPUT_DATE →
    ∃ a b, s.data = { departure := some a, destination := some b }) ∧
  (s.state = STATE.INPUT_DEPARTURE_TIME →
    ∃ a b c, s.data = { departure := some a, destination := some b, date := some c }) ∧
  (s.state = STATE.INPUT_ARRIVAL_TIME →
    ∃ a b c d, s.data = { departure := some a, destination := some b, date := some c,
                          departureTime := some d }) ∧
  (s.state = STATE.SELECT_RAILWAY →
    ∃ a b c d e, s.data = { departure := some a, destination := some b, date := some c,
                            departureTime := some d, arrivalTime := some e }) ∧
  (s.state = STATE.SELECT_ROUTE →
    ∃ a b c d e f, s.data = { departure := some a, destination := some b, date := some c,
                              departureTime := some d, arrivalTime := some e,
                              selectedRailway := some f })

/-- The number a string of decimal digits reads as. -/
def digitsValue (s : String) : Nat :=
  s.toList.foldl (fun value c => 10 * value + (c.toNat - 48)) 0

/-- A session waiting for the line choice, with the six earlier answers captured. -/
def sessionAtRouteChoice : Session :=
  { state := STATE.SELECT_ROUTE,
    data := { departure := some "東京", destination := some "横浜", date := some "2023-03-08",
              departureTime := some "10:00", arrivalTime := some "18:00",
              selectedRailway := some "X" } }

/-- Three candidates equal in every attribute, all matching operator X and line Y. -/
def threeEqualCandidates : List Course :=
  [sampleCourse "X" "Y" "1730" (some 90),
   sampleCourse "X" "Y" "1730" (some 90),
   sampleCourse "X" "Y" "1730" (some 90)]

/-- Two segments: 東京 to 品川 on line Y, then 品川 to 横浜 on line K. -/
def twoSegments : List Line :=
  [{ Corporation := some { Name := "X" }, Name := "Y",
     Station := [{ Name := "東京" }, { Name := "新橋" }, { Name := "品川" }] },
   { Corporation := some { Name := "X" }, Name := "K",
     Station := [{ Name := "品川" }, { Name := "横浜" }] }]

/-- Two rendered results. -/
def twoResults : List RouteResult :=
  [{ title := "ルート1: 東京→横浜", description := "出発: 10:00 → 到着: 17:45", details := "東京 [Y] → 横浜" },
   { title := "ルート2: 東京→横浜", description := "出発: 10:00 → 到着: 18:00", details := "東京 [K] → 横浜" }]

/-- An answer of the station search with two matches. -/
def twoStationsFound : Response StationResultSet :=
  { data := some { ResultSet := some { Point := some (.many
      [{ Station := { code := "22828" } }, { Station := { code := "23368" } }]) } } }

/-- An answer of the station search with an empty array of matches. -/
def noStationFound : Response StationResultSet :=
  { data := some { ResultSet := some { Point := some (.many []) } } }

/-- A routing API whose station search gives the stated answer; nothing else is reached. -/
def stationApi (answer : Response StationResultSet) : Api :=
  { unreachableApi with station := fun _ => .ok answer }

/-- The session after the texts are handled one after another, the first text first. -/
def sessionAfter (svc : Services) (s : Session) (texts : List String) : Session :=
  texts.foldl (fun session text => (processUserInput svc session text).1) s

/-- The start keyword and the first two answers of a cycle. -/
def textsUpToDate : List String := ["出発", "東京", "横浜"]

/-- The start keyword and the first six answers of a cycle. -/
def textsUpToRouteChoice : List String :=
  ["出発", "東京", "横浜", "2023-03-08", "10:00", "18:00", "JR東日本"]

/-- A candidate of the two segments `twoSegments`, the first object of an answer. -/
def twoSegmentCourse : Ekispert.CourseRef :=
  (0, { Route :=
          { Line := twoSegments,
            Departure := { Station := { Name := "東京" }, Time := "1000" },
            Arrival := { Station := { Name := "横浜" }, Time := "1100" },
            timeOnBoard := some 55 },
        Price := some { Fare := "490" } })

/-- A string of exactly `n` decimal digits. -/
def IsDigits (n : Nat) (s : String) : Prop :=
  s.length = n ∧ ∀ c ∈ s.toList, c.isDigit = true

/-- Two candidates: the first with 90 minutes on board, the second with 10^21 minutes. -/
def hugeAfterNinety : List Ekispert.CourseRef :=
  [sampleCourse "X" "Y" "1730" (some 90),
   sampleCourse "X" "Y" "1730" (some 1000000000000000000000)].enum

/-- The answer of the operator listing with three operators. -/
def operatorsFound : Response CorporationResultSet :=
  { data := some { ResultSet := some { Corporation := some (.many
      [{ id := "1", Name := "JR東日本" }, { id := "2", Name := "東京メトロ" },
       { id := "3", Name := "東急電鉄" }]) } } }

/-- The answer of the line listing with two lines. -/
def linesFound : Response LineResultSet :=
  { data := some { ResultSet := some { Line := some (.many
      [{ id := "101", Name := "山手線" }, { id := "102", Name := "中央線" }]) } } }

/-- A routing API that answers every request: stations resolve, three operators and two
lines are listed, and the search has five candidates. -/
def workingApi : Api :=
  { ekispertApiKey := "key",
    station := fun _ => .ok stationFound,
    corporation := .ok operatorsFound,
    railway := fun _ => .ok linesFound,
    search := fun _ => .ok (candidateList fiveCandidates) }

/-- A candidate of operator X and line Y, arriving at 17:30, whose one segment has an empty
array of stations. -/
def stationlessCourse : Course :=
  { Route :=
      { Line := [{ Corporation := some { Name := "X" }, Name := "Y", Station := [] }],
        Departure := { Station := { Name := "東京" }, Time := "1000" },
        Arrival := { Station := { Name := "横浜" }, Time := "1730" },
        timeOnBoard := some 40 },
    Price := none }

/-! ## The state machine: reset, linear progress, operator-listing failure -/

section StateMachine

variable (svc : Services)

theorem processUserInput_start (s : Session) :
    processUserInput svc s "出発" =
      ({ state := STATE.INPUT_DEPARTURE, data := {} },
       [Message.text "出発駅を入力してください"]) := by
  simp [processUserInput]

theorem state_after_INPUT_DEPARTURE (s : Session) (t : String) (ht : t ≠ "出発")
    (hs : s.state = STATE.INPUT_DEPARTURE) :
    (processUserInput svc s t).1.state = STATE.INPUT_DESTINATION := by
  simp [processUserInput, ht, hs]

theorem state_after_INPUT_DESTINATION (s : Session) (t : String) (ht : t ≠ "出発")
    (hs : s.state = STATE.INPUT_DESTINATION) :
    (processUserInput svc s t).1.state = STATE.INPUT_DATE := by
  simp [processUserInput, ht, hs, STATE.INPUT_DESTINATION, STATE.INPUT_DEPARTURE]

theorem state_after_INPUT_DATE (s : Session) (t : String) (ht : t ≠ "出発")
    (hs : s.state = STATE.INPUT_DATE) :
    (processUserInput svc s t).1.state = STATE.INPUT_DEPARTURE_TIME := by
  simp [processUserInput, ht, hs, STATE.INPUT_DESTINATION, STATE.INPUT_DEPARTURE,
    STATE.INPUT_DATE]

theorem state_after_INPUT_DEPARTURE_TIME (s : Session) (t : String) (ht : t ≠ "出発")
    (hs : s.state = STATE.INPUT_DEPARTURE_TIME) :
    (processUserInput svc s t).1.state = STATE.INPUT_ARRIVAL_TIME := by
  simp [processUserInput, ht, hs, STATE.INPUT_DESTINATION, STATE.INPUT_DEPARTURE,
    STATE.INPUT_DATE, STATE.INPUT_DEPARTURE_TIME]

theorem processUserInput_INPUT_ARRIVAL_TIME (s : Session) (t : String) (ht : t ≠ "出発")
    (hs : s.state = STATE.INPUT_ARRIVAL_TIME) :
    processUserInput svc s t =
      match svc.fetchAvailableRailways { s.data with arrivalTime := some t } with
      | .ok railways =>
        ({ state := STATE.SELECT_RAILWAY, data := { s.data with arrivalTime := some t } },
         [createRailwaySelectionMessage railways])
      | .error _ =>
        ({ state := STATE.IDLE, data := { s.data with arrivalTime := some t } },
         [Message.text "鉄道会社の取得に失敗しました。もう一度お試しください。"]) := by
  simp [processUserInput, ht, hs, STATE.INPUT_DESTINATION, STATE.INPUT_DEPARTURE,
    STATE.INPUT_DATE, STATE.INPUT_DEPARTURE_TIME, STATE.INPUT_ARRIVAL_TIME]

theorem state_after_INPUT_ARRIVAL_TIME (s : Session) (t : String) (ht : t ≠ "出発")
    (hs : s.state = STATE.INPUT_ARRIVAL_TIME) (railways : List Railway)
    (hok : svc.fetchAvailableRailways { s.data with arrivalTime := some t } = .ok railways) :
    (processUserInput svc s t).1.state = STATE.SELECT_RAILWAY := by
  rw [processUserInput_INPUT_ARRIVAL_TIME svc s t ht hs, hok]

theorem processUserInput_SELECT_RAILWAY (s : Session) (t : String) (ht : t ≠ "出発")
    (hs : s.state = STATE.SELECT_RAILWAY) :
    processUserInput svc s t =
      match svc.fetchRoutesByRailway t with
      | .ok routes =>
        ({ state := STATE.SELECT_ROUTE, data := { s.data with selectedRailway := some t } },
         [createRouteSelectionMessage routes])
      | .error _ =>
        ({ state := STATE.IDLE, data := { s.data with selectedRailway := some t } },
         [Message.text "路線の取得に失敗しました。もう一度お試しください。"]) := by
  simp [processUserInput, ht, hs, STATE.INPUT_DESTINATION, STATE.INPUT_DEPARTURE,
    STATE.INPUT_DATE, STATE.INPUT_DEPARTURE_TIME, STATE.INPUT_ARRIVAL_TIME,
    STATE.SELECT_RAILWAY]

theorem state_after_SELECT_RAILWAY (s : Session) (t : String) (ht : t ≠ "出発")
    (hs : s.state = STATE.SELECT_RAILWAY) (routes : List Railway)
    (hok : svc.fetchRoutesByRailway t = .ok routes) :
    (processUserInput svc s t).1.state = STATE.SELECT_ROUTE := by
  rw [processUserInput_SELECT_RAILWAY svc s t ht hs, hok]

theorem processUserInput_SELECT_ROUTE (s : Session) (t : String) (ht : t ≠ "出発")
    (hs : s.state = STATE.SELECT_ROUTE) :
    processUserInput svc s t =
      match svc.fetchTimeConsumingRoutes { s.data with selectedRoute := some t } with
      | .ok timeConsumingRoutes =>
        ({ state := STATE.IDLE, data := { s.data with selectedRoute := some t } },
         createRouteResultsMessage timeConsumingRoutes)
      | .error _ =>
        ({ state := STATE.IDLE, data := { s.data with selectedRoute := some t } },
         [Message.text "ルートの取得に失敗しました。もう一度お試しください。"]) := by
  simp [processUserInput, ht, hs, STATE.INPUT_DESTINATION, STATE.INPUT_DEPARTURE,
    STATE.INPUT_DATE, STATE.INPUT_DEPARTURE_TIME, STATE.INPUT_ARRIVAL_TIME,
    STATE.SELECT_RAILWAY, STATE.SELECT_ROUTE]

theorem state_after_SELECT_ROUTE (s : Session) (t : String) (ht : t ≠ "出発")
    (hs : s.state = STATE.SELECT_ROUTE) :
    (processUserInput svc s t).1.state = STATE.IDLE := by
  rw [processUserInput_SELECT_ROUTE svc s t ht hs]
  cases svc.fetchTimeConsumingRoutes { s.data with selectedRoute := some t } <;> rfl

end StateMachine

/-- C1: for every session, handling the start keyword leaves the session in state
INPUT_DEPARTURE with an empty field mapping, and handling the start keyword a second time
right after gives the same session again. -/
theorem start_keyword_resets_and_is_idempotent (svc : Services) (s : Session) :
    (processUserInput svc s "出発").1.state = STATE.INPUT_DEPARTURE ∧
    (processUserInput svc s "出発").1.data = {} ∧
    (processUserInput svc (processUserInput svc s "出発").1 "出発").1 =
      (processUserInput svc s "出発").1 := by
  simp [processUserInput_start]

/-- C7: in state INPUT_ARRIVAL_TIME, for a text that is not the start keyword, when the
operator listing fails the session is left in state IDLE and exactly one message is sent,
the operator-lookup failure text; after the next start keyword the field mapping is empty. -/
theorem operator_listing_failure_resets (svc : Services) (s : Session) (t : String)
    (error : JsError) (hs : s.state = STATE.INPUT_ARRIVAL_TIME) (ht : t ≠ "出発")
    (hfail : svc.fetchAvailableRailways { s.data with arrivalTime := some t } =
      .error error) :
    (processUserInput svc s t).1.state = STATE.IDLE ∧
    (processUserInput svc s t).2 =
      [Message.text "鉄道会社の取得に失敗しました。もう一度お試しください。"] ∧
    (processUserInput svc (processUserInput svc s t).1 "出発").1.data = {} := by
  rw [processUserInput_INPUT_ARRIVAL_TIME svc s t ht hs, hfail]
  simp [processUserInput_start]

/-- C7, at the services of `src/ekispert-api.js` over a routing API that cannot be reached. -/
theorem operator_listing_failure_resets_witness :
    (processUserInput (Ekispert.services unreachableApi)
        { state := STATE.INPUT_ARRIVAL_TIME,
          data := { departure := some "東京", destination := some "横浜",
                    date := some "2023-03-08", departureTime := some "10:00" } }
        "18:00").1.state = STATE.IDLE ∧
    (processUserInput (Ekispert.services unreachableApi)
        { state := STATE.INPUT_ARRIVAL_TIME,
          data := { departure := some "東京", destination := some "横浜",
                    date := some "2023-03-08", departureTime := some "10:00" } }
        "18:00").2 =
      [Message.text "鉄道会社の取得に失敗しました。もう一度お試しください。"] ∧
    (processUserInput (Ekispert.services unreachableApi)
        (processUserInput (Ekispert.services unreachableApi)
          { state := STATE.INPUT_ARRIVAL_TIME,
            data := { departure := some "東京", destination := some "横浜",
                      date := some "2023-03-08", departureTime := some "10:00" } }
          "18:00").1 "出発").1.data = {} :=
  operator_listing_failure_resets (Ekispert.services unreachableApi)
    { state := STATE.INPUT_ARRIVAL_TIME,
      data := { departure := some "東京", destination := some "横浜",
                date := some "2023-03-08", departureTime := some "10:00" } }
    "18:00" (.error "Network Error") rfl (by decide) rfl

/-- C8: for every list of options, the menu of `createRailwaySelectionMessage`, and likewise
the menu of `createRouteSelectionMessage`, has exactly min(4, number of options) actions,
they are built from the first options in input order, and the payload text of each action
is its label, the name of the option; six options give exactly the first four. -/
theorem selection_menus_keep_first_four (options : List Railway) :
    (createRailwaySelectionMessage options).actions.length = min 4 options.length ∧
    (createRailwaySelectionMessage options).actions =
      (options.take 4).map (fun o =>
        { type := "button", action := { type := "message", label := o.name, text := o.name } }) ∧
    (∀ b ∈ (createRailwaySelectionMessage options).actions, b.action.text = b.action.label) ∧
    (createRouteSelectionMessage options).actions.length = min 4 options.length ∧
    (createRouteSelectionMessage options).actions =
      (options.take 4).map (fun o =>
        { type := "button", action := { type := "message", label := o.name, text := o.name } }) ∧
    (∀ b ∈ (createRouteSelectionMessage options).actions, b.action.text = b.action.label) ∧
    (createRailwaySelectionMessage sixOptions).actions.map (·.action.label) =
      ["A", "B", "C", "D"] ∧
    (createRouteSelectionMessage sixOptions).actions.map (·.action.label) =
      ["A", "B", "C", "D"] := by
  refine ⟨?_, ?_, ?_, ?_, ?_, ?_, by decide, by decide⟩
  · simp [createRailwaySelectionMessage, Message.actions, slice]
  · simp [createRailwaySelectionMessage, Message.actions, slice, List.map_take]
  · intro b hb
    simp only [createRailwaySelectionMessage, Message.actions, slice] at hb
    obtain ⟨o, -, rfl⟩ := List.mem_map.mp (List.mem_of_mem_take hb)
    rfl
  · simp [createRouteSelectionMessage, Message.actions, slice]
  · simp [createRouteSelectionMessage, Message.actions, slice, List.map_take]
  · intro b hb
    simp only [createRouteSelectionMessage, Message.actions, slice] at hb
    obtain ⟨o, -, rfl⟩ := List.mem_map.mp (List.mem_of_mem_take hb)
    rfl

/-! ## The filter and the ranking -/

namespace Ekispert

theorem keepsCourse_iff (railwayName routeName : Option String) (arrivalTime : String)
    (course : Course) :
    keepsCourse railwayName routeName arrivalTime course = true ↔
      MatchesQuery railwayName routeName arrivalTime course := by
  unfold keepsCourse MatchesQuery includesSelectedRailway includesSelectedRoute
    isWithinTimeRange
  simp only [Bool.and_eq_true, List.any_eq_true, decide_eq_true_eq, and_assoc]
  refine and_congr ?_ Iff.rfl
  constructor
  · rintro ⟨line, hline, h⟩
    refine ⟨line, hline, ?_⟩
    cases hc : line.Corporation with
    | none => simp [hc] at h
    | some corporation => exact ⟨corporation, rfl, by simpa [hc] using h⟩
  · rintro ⟨line, hline, corporation, hc, h⟩
    exact ⟨line, hline, by simpa [hc] using h⟩

theorem mem_filterCourses (railwayName routeName : Option String) (arrivalTime : String)
    (courses : List CourseRef) (c : CourseRef) :
    c ∈ filterCourses railwayName routeName arrivalTime courses ↔
      c ∈ courses ∧ MatchesQuery railwayName routeName arrivalTime c.2 := by
  simp [filterCourses, keepsCourse_iff]

theorem leadingDigitAux_pos (fuel n : Nat) (h : 0 < n) : 0 < leadingDigitAux fuel n := by
  induction fuel generalizing n with
  | zero => exact h
  | succ fuel ih =>
    unfold leadingDigitAux
    split_ifs with hlt
    · exact h
    · exact ih (n / 10) (Nat.div_pos (by omega) (by decide))

theorem parseInt_of_small (n : Int) (h : n.natAbs < 1000000000000000000000) :
    parseInt n = n := by
  simp [parseInt, h]

theorem parseInt_zero : parseInt 0 = 0 := by decide

theorem parseInt_pos (n : Int) (h : 0 < n) : 0 < parseInt n := by
  unfold parseInt
  split_ifs with hsmall
  · exact h
  · rw [Int.sign_eq_one_of_pos h, one_mul]
    have hpos : 0 < n.natAbs := Int.natAbs_pos.mpr (ne_of_gt h)
    exact_mod_cast leadingDigitAux_pos n.natAbs n.natAbs hpos

theorem timeOf_missing (course : Course) (h : course.Route.timeOnBoard = none) :
    timeOf course = 0 := by
  simp [timeOf, timeOrZero, h, parseInt_zero]

theorem timeOf_zero (course : Course) (h : course.Route.timeOnBoard = some 0) :
    timeOf course = 0 := by
  simp [timeOf, timeOrZero, h, parseInt_zero]

theorem timeOf_pos (course : Course) (minutes : Int)
    (h : course.Route.timeOnBoard = some minutes) (hpos : 0 < minutes) :
    0 < timeOf course := by
  have hne : minutes ≠ 0 := ne_of_gt hpos
  simp only [timeOf, timeOrZero, h, hne, if_false]
  exact parseInt_pos minutes hpos

theorem timeOf_of_safe (course : Course)
    (h : (course.Route.timeOnBoard.getD 0).natAbs < 9007199254740992) :
    timeOf course = course.Route.timeOnBoard.getD 0 := by
  unfold timeOf timeOrZero
  cases hm : course.Route.timeOnBoard with
  | none => simp [parseInt_zero]
  | some minutes =>
    rw [hm] at h
    simp only [Option.getD_some] at h ⊢
    by_cases h0 : minutes = 0
    · simp [h0, parseInt_zero]
    · simp only [h0, if_false]
      exact parseInt_of_small minutes (by omega)

theorem sortCourses_perm (courses : List CourseRef) : (sortCourses courses).Perm courses :=
  List.perm_insertionSort _ courses

theorem mem_sortCourses (courses : List CourseRef) (c : CourseRef) :
    c ∈ sortCourses courses ↔ c ∈ courses :=
  (sortCourses_perm courses).mem_iff

theorem length_sortCourses (courses : List CourseRef) :
    (sortCourses courses).length = courses.length :=
  (sortCourses_perm courses).length_eq

instance compareTime_total : IsTotal CourseRef (fun a b => compareTime a b ≤ 0) :=
  ⟨fun a b => by unfold compareTime; omega⟩

instance compareTime_trans : IsTrans CourseRef (fun a b => compareTime a b ≤ 0) :=
  ⟨fun a b c => by unfold compareTime; omega⟩

theorem sortCourses_sorted (courses : List CourseRef) :
    (sortCourses courses).Pairwise (fun a b => timeOf b.2 ≤ timeOf a.2) := by
  have h := List.sorted_insertionSort (fun a b : CourseRef => compareTime a b ≤ 0) courses
  refine List.Pairwise.imp ?_ h
  intro a b hab
  unfold compareTime at hab
  omega

theorem sortCourses_stable (courses : List CourseRef) (a b : CourseRef)
    (hab : timeOf a.2 = timeOf b.2) (h : List.Sublist [a, b] courses) :
    List.Sublist [a, b] (sortCourses courses) :=
  List.pair_sublist_insertionSort (by unfold compareTime; omega) h

theorem pair_sublist_of_mem {α : Type} (l : List α) (a b : α) (ha : a ∈ l) (hb : b ∈ l)
    (hne : a ≠ b) : List.Sublist [a, b] l ∨ List.Sublist [b, a] l := by
  induction l with
  | nil => simp at ha
  | cons x xs ih =>
    rcases List.mem_cons.mp ha with rfl | ha1
    · rcases List.mem_cons.mp hb with rfl | hb1
      · exact absurd rfl hne
      · exact Or.inl (List.Sublist.cons₂ _ (List.singleton_sublist.mpr hb1))
    · rcases List.mem_cons.mp hb with rfl | hb1
      · exact Or.inr (List.Sublist.cons₂ _ (List.singleton_sublist.mpr ha1))
      · rcases ih ha1 hb1 with h | h
        · exact Or.inl (List.Sublist.cons _ h)
        · exact Or.inr (List.Sublist.cons _ h)

theorem sortCourses_before_of_lt (courses : List CourseRef) (a b : CourseRef)
    (ha : a ∈ courses) (hb : b ∈ courses) (hlt : timeOf a.2 < timeOf b.2) :
    List.Sublist [b, a] (sortCourses courses) := by
  have hne : a ≠ b := by
    rintro rfl
    exact lt_irrefl _ hlt
  rcases pair_sublist_of_mem (sortCourses courses) a b
      ((mem_sortCourses courses a).mpr ha) ((mem_sortCourses courses b).mpr hb) hne with h | h
  · have hp := (sortCourses_sorted courses).sublist h
    rw [List.pairwise_pair] at hp
    omega
  · exact h

theorem filter_eq_singleton {α : Type} (p : α → Bool) (l : List α) (c : α) (hnd : l.Nodup)
    (hc : c ∈ l) (hp : p c = true) (hother : ∀ d ∈ l, d ≠ c → p d = false) :
    l.filter p = [c] := by
  induction l with
  | nil => simp at hc
  | cons x xs ih =>
    rw [List.nodup_cons] at hnd
    rcases List.mem_cons.mp hc with rfl | hc1
    · have hxs : xs.filter p = [] := by
        rw [List.filter_eq_nil_iff]
        intro d hd
        have hdc : d ≠ c := by
          rintro rfl
          exact hnd.1 hd
        simp [hother d (List.mem_cons_of_mem _ hd) hdc]
      simp [List.filter_cons, hp, hxs]
    · have hxc : x ≠ c := by
        rintro rfl
        exact hnd.1 hc1
      have hx : p x = false := hother x (List.mem_cons_self _ _) hxc
      rw [List.filter_cons, hx]
      simpa using ih hnd.2 hc1 (fun d hd => hother d (List.mem_cons_of_mem _ hd))

theorem nodup_enum (courses : List Course) : courses.enum.Nodup := by
  have h : (courses.enum.map Prod.fst).Nodup := by
    rw [List.enum_map_fst]
    exact List.nodup_range _
  exact List.Nodup.of_map _ h

theorem sortCourses_singleton (c : CourseRef) : sortCourses [c] = [c] := rfl

end Ekispert

/-- C3: every candidate kept by the filter and rank step is one of the raw candidates and
satisfies all three conditions together (operator, line, arrival bound); a raw candidate
that fails any one of them is not in the output; and when exactly one raw candidate
satisfies all three, the output is exactly that one. -/
theorem ranked_candidates_match_query (railwayName routeName : Option String)
    (arrivalTime : String) (courses : List Course) :
    (∀ c ∈ Ekispert.rankCourses railwayName routeName arrivalTime courses,
      c ∈ courses.enum ∧ MatchesQuery railwayName routeName arrivalTime c.2) ∧
    (∀ c ∈ courses.enum, ¬ MatchesQuery railwayName routeName arrivalTime c.2 →
      c ∉ Ekispert.rankCourses railwayName routeName arrivalTime courses) ∧
    (∀ c ∈ courses.enum, MatchesQuery railwayName routeName arrivalTime c.2 →
      (∀ d ∈ courses.enum, d ≠ c → ¬ MatchesQuery railwayName routeName arrivalTime d.2) →
      Ekispert.rankCourses railwayName routeName arrivalTime courses = [c]) := by
  have hmem : ∀ c ∈ Ekispert.rankCourses railwayName routeName arrivalTime courses,
      c ∈ courses.enum ∧ MatchesQuery railwayName routeName arrivalTime c.2 := by
    intro c hc
    have h1 := List.mem_of_mem_take hc
    rw [Ekispert.mem_sortCourses] at h1
    exact (Ekispert.mem_filterCourses _ _ _ _ _).mp h1
  refine ⟨hmem, fun c _ hnot hc => hnot (hmem c hc).2, ?_⟩
  intro c hc hmatch hother
  have hfilter : Ekispert.filterCourses railwayName routeName arrivalTime courses.enum =
      [c] := by
    refine Ekispert.filter_eq_singleton _ _ c (Ekispert.nodup_enum courses) hc
      ((Ekispert.keepsCourse_iff _ _ _ _).mpr hmatch) ?_
    intro d hd hdc
    have := hother d hd hdc
    rw [← Ekispert.keepsCourse_iff] at this
    simpa using this
  simp [Ekispert.rankCourses, hfilter, Ekispert.sortCourses_singleton, slice]

/-- C3, on three raw candidates of which only the second matches operator X, line Y and
arrives by 18:00: the output is exactly that candidate, and it satisfies the three
conditions. -/
theorem ranked_candidates_match_query_witness :
    Ekispert.rankCourses (some "X") (some "Y") "1800" threeCandidates =
      [(1, sampleCourse "X" "Y" "1730" (some 40))] ∧
    MatchesQuery (some "X") (some "Y") "1800" (sampleCourse "X" "Y" "1730" (some 40)) :=
  ⟨by decide,
   ((ranked_candidates_match_query (some "X") (some "Y") "1800" threeCandidates).1
      (1, sampleCourse "X" "Y" "1730" (some 40)) (by decide)).2⟩

/-- C4 as stated fails: of two candidates with 90 and 10^21 minutes on board, in that order,
the ranked order keeps the one with 90 minutes first.  The number 10^21 prints as `1e+21`,
which `parseInt` reads as 1, so the order is not descending in time on board. -/
theorem huge_time_is_not_ranked_first :
    (sampleCourse "X" "Y" "1730" (some 90)).Route.timeOnBoard = some 90 ∧
    (sampleCourse "X" "Y" "1730" (some 1000000000000000000000)).Route.timeOnBoard =
      some 1000000000000000000000 ∧
    Ekispert.sortCourses hugeAfterNinety =
      [(0, sampleCourse "X" "Y" "1730" (some 90)),
       (1, sampleCourse "X" "Y" "1730" (some 1000000000000000000000))] ∧
    ¬ (Ekispert.sortCourses hugeAfterNinety).Pairwise
      (fun a b => b.2.Route.timeOnBoard.getD 0 ≤ a.2.Route.timeOnBoard.getD 0) := by
  decide

/-- C4, amended: when every time on board is an integer below 2^53 in absolute value, the
ranking step orders the candidates by time on board descending, a missing value counting as
0, and is stable: two candidates with equal time on board keep the order they had in the
input.  Times 30, 90, 90, 60 give the first 90, the second 90, then 60 after truncation
to 3. -/
theorem ranking_is_stable_descending (courses : List Ekispert.CourseRef)
    (hbound : ∀ c ∈ courses, (c.2.Route.timeOnBoard.getD 0).natAbs < 9007199254740992) :
    (Ekispert.sortCourses courses).Perm courses ∧
    (Ekispert.sortCourses courses).Pairwise
      (fun a b => b.2.Route.timeOnBoard.getD 0 ≤ a.2.Route.timeOnBoard.getD 0) ∧
    (∀ a b, a.2.Route.timeOnBoard.getD 0 = b.2.Route.timeOnBoard.getD 0 →
      List.Sublist [a, b] courses → List.Sublist [a, b] (Ekispert.sortCourses courses)) ∧
    slice (Ekispert.sortCourses fourTimes) 3 =
      [(1, sampleCourse "X" "Y" "1730" (some 90)),
       (2, sampleCourse "X" "Y" "1730" (some 90)),
       (3, sampleCourse "X" "Y" "1730" (some 60))] := by
  have hkey : ∀ c ∈ courses, Ekispert.timeOf c.2 = c.2.Route.timeOnBoard.getD 0 :=
    fun c hc => Ekispert.timeOf_of_safe c.2 (hbound c hc)
  refine ⟨Ekispert.sortCourses_perm courses, ?_, ?_, by decide⟩
  · have hsorted := Ekispert.sortCourses_sorted courses
    rw [List.pairwise_iff_forall_sublist] at hsorted ⊢
    intro a b hab
    have ha : a ∈ courses :=
      (Ekispert.mem_sortCourses courses a).mp (hab.subset (by simp))
    have hb : b ∈ courses :=
      (Ekispert.mem_sortCourses courses b).mp (hab.subset (by simp))
    have h := hsorted hab
    rwa [hkey a ha, hkey b hb] at h
  · intro a b hab hsub
    have ha : a ∈ courses := hsub.subset (by simp)
    have hb : b ∈ courses := hsub.subset (by simp)
    exact Ekispert.sortCourses_stable courses a b (by rw [hkey a ha, hkey b hb, hab]) hsub

/-- C4 amended, on the four candidates with 30, 90, 90 and 60 minutes: the two candidates
with 90 minutes keep their input order. -/
theorem ranking_is_stable_descending_witness :
    List.Sublist
      [(1, sampleCourse "X" "Y" "1730" (some 90)), (2, sampleCourse "X" "Y" "1730" (some 90))]
      (Ekispert.sortCourses fourTimes) :=
  (ranking_is_stable_descending fourTimes (by decide)).2.2.1 _ _ rfl
    (List.Sublist.cons _ (List.Sublist.cons₂ _ (List.Sublist.cons₂ _
      (List.Sublist.cons _ List.Sublist.slnil))))

/-- C6 as stated fails: of two candidates, the first without time on board and the second
with 0 minutes, the ranked order keeps the one without a value first, so it is not below the
one that has a value ≥ 0. -/
theorem missing_time_not_below_zero :
    ((0, sampleCourse "X" "Y" "1730" none) : Ekispert.CourseRef) ∈ missingThenZero ∧
    ((1, sampleCourse "X" "Y" "1730" (some 0)) : Ekispert.CourseRef) ∈ missingThenZero ∧
    (sampleCourse "X" "Y" "1730" none).Route.timeOnBoard = none ∧
    (sampleCourse "X" "Y" "1730" (some 0)).Route.timeOnBoard = some 0 ∧
    Ekispert.sortCourses missingThenZero =
      [(0, sampleCourse "X" "Y" "1730" none), (1, sampleCourse "X" "Y" "1730" (some 0))] ∧
    ¬ List.Sublist
      [((1, sampleCourse "X" "Y" "1730" (some 0)) : Ekispert.CourseRef),
       (0, sampleCourse "X" "Y" "1730" none)]
      (Ekispert.sortCourses missingThenZero) := by
  decide

/-- C6, amended: in the ranked order a candidate with no time on board comes after every
candidate whose time on board is greater than 0; against a candidate whose time on board is
0 it keeps the order the two had in the input. -/
theorem missing_time_below_positive (courses : List Ekispert.CourseRef)
    (a b : Ekispert.CourseRef) (ha : a ∈ courses) (hb : b ∈ courses)
    (hmissing : a.2.Route.timeOnBoard = none) :
    (∀ minutes, b.2.Route.timeOnBoard = some minutes → 0 < minutes →
      List.Sublist [b, a] (Ekispert.sortCourses courses)) ∧
    (b.2.Route.timeOnBoard = some 0 →
      (List.Sublist [a, b] courses → List.Sublist [a, b] (Ekispert.sortCourses courses)) ∧
      (List.Sublist [b, a] courses → List.Sublist [b, a] (Ekispert.sortCourses courses))) := by
  have hta : Ekispert.timeOf a.2 = 0 := Ekispert.timeOf_missing a.2 hmissing
  constructor
  · intro minutes hminutes hpos
    have htb : 0 < Ekispert.timeOf b.2 := Ekispert.timeOf_pos b.2 minutes hminutes hpos
    exact Ekispert.sortCourses_before_of_lt courses a b ha hb (by omega)
  · intro hzero
    have htb : Ekispert.timeOf b.2 = 0 := Ekispert.timeOf_zero b.2 hzero
    exact ⟨Ekispert.sortCourses_stable courses a b (by omega),
      Ekispert.sortCourses_stable courses b a (by omega)⟩

/-- C6 amended, on two candidates, the first without time on board and the second with 45
minutes: the one without a value is ranked after the other. -/
theorem missing_time_below_positive_witness :
    List.Sublist
      [((1, sampleCourse "X" "Y" "1730" (some 45)) : Ekispert.CourseRef),
       (0, sampleCourse "X" "Y" "1730" none)]
      (Ekispert.sortCourses missingThenPositive) :=
  (missing_time_below_positive missingThenPositive (0, sampleCourse "X" "Y" "1730" none)
    (1, sampleCourse "X" "Y" "1730" (some 45)) (by decide) (by decide) rfl).1 45 rfl
    (by decide)

/-! ## The search as a whole -/

namespace Ekispert

theorem segmentText_ok (line : Line) (h : line.Station ≠ []) :
    ∃ text, segmentText line = .ok text := by
  unfold segmentText
  cases hs : line.Station with
  | nil => exact absurd hs h
  | cons x xs =>
    cases hl : (x :: xs).getLast? with
    | none => simp at hl
    | some toStation => exact ⟨_, rfl⟩

theorem segmentTexts_ok (lines : List Line) (h : ∀ line ∈ lines, line.Station ≠ []) :
    ∃ texts, segmentTexts lines = .ok texts := by
  induction lines with
  | nil => exact ⟨[], rfl⟩
  | cons line rest ih =>
    obtain ⟨text, ht⟩ := segmentText_ok line (h line (List.mem_cons_self _ _))
    obtain ⟨texts, hts⟩ := ih (fun l hl => h l (List.mem_cons_of_mem _ hl))
    exact ⟨text :: texts, by simp [segmentTexts, ht, hts]⟩

theorem renderCourse_ok (sortedCourses : List CourseRef) (course : CourseRef)
    (h : ∀ line ∈ course.2.Route.Line, line.Station ≠ []) :
    ∃ result, renderCourse sortedCourses course = .ok result := by
  obtain ⟨texts, hts⟩ := segmentTexts_ok _ h
  simp only [renderCourse, routeDetails, hts]
  exact ⟨_, rfl⟩

theorem renderCourses_eq_ok (sortedCourses : List CourseRef) (kept : List CourseRef)
    (results : List RouteResult) (h : renderCourses sortedCourses kept = .ok results) :
    List.Forall₂ (fun course result => renderCourse sortedCourses course = .ok result)
      kept results := by
  induction kept generalizing results with
  | nil =>
    simp only [renderCourses, Except.ok.injEq] at h
    subst h
    exact List.Forall₂.nil
  | cons course rest ih =>
    unfold renderCourses at h
    cases h1 : renderCourse sortedCourses course with
    | error e => simp [h1] at h
    | ok result =>
      cases h2 : renderCourses sortedCourses rest with
      | error e => simp [h1, h2] at h
      | ok others =>
        simp only [h1, h2, Except.ok.injEq] at h
        subst h
        exact List.Forall₂.cons h1 (ih others h2)

theorem renderCourses_ok (sortedCourses : List CourseRef) (kept : List CourseRef)
    (h : ∀ course ∈ kept, ∀ line ∈ course.2.Route.Line, line.Station ≠ []) :
    ∃ results, renderCourses sortedCourses kept = .ok results := by
  induction kept with
  | nil => exact ⟨[], rfl⟩
  | cons course rest ih =>
    obtain ⟨result, hr⟩ := renderCourse_ok sortedCourses course
      (h course (List.mem_cons_self _ _))
    obtain ⟨others, ho⟩ := ih (fun c hc => h c (List.mem_cons_of_mem _ hc))
    exact ⟨result :: others, by simp [renderCourses, hr, ho]⟩

theorem resultsOfResponse_found (railwayName routeName : Option String)
    (arrivalTime : String) (response : Response CourseResultSet)
    (found : OneOrMany Course) (hfound : response.resultOf (·.Course) = some found) :
    resultsOfResponse railwayName routeName arrivalTime response =
      renderCourses
        (sortCourses (filterCourses railwayName routeName arrivalTime found.toArray.enum))
        (rankCourses railwayName routeName arrivalTime found.toArray) := by
  simp [resultsOfResponse, hfound, rankCourses]

theorem resultsOfResponse_none (railwayName routeName : Option String)
    (arrivalTime : String) (response : Response CourseResultSet)
    (hnone : response.resultOf (·.Course) = none) :
    resultsOfResponse railwayName routeName arrivalTime response = .ok [] := by
  simp [resultsOfResponse, hnone]

theorem fetchTimeConsumingRoutesTry_of_answer (api : Api) (userData : UserData)
    (departureStationCode destinationStationCode date departureTime arrivalTime : String)
    (hdeparture : getStationCode api userData.departure = .ok departureStationCode)
    (hdestination : getStationCode api userData.destination = .ok destinationStationCode)
    (hdate : userData.date = some date)
    (hdepartureTime : userData.departureTime = some departureTime)
    (harrivalTime : userData.arrivalTime = some arrivalTime) :
    fetchTimeConsumingRoutesTry api userData =
      match api.search (searchParams api departureStationCode destinationStationCode
        (removeAll '-' date) (removeFirst ':' departureTime)) with
      | .error error => .error error
      | .ok response =>
        resultsOfResponse userData.selectedRailway userData.selectedRoute
          (removeFirst ':' arrivalTime) response := by
  simp only [fetchTimeConsumingRoutesTry, hdeparture, hdestination, hdate, hdepartureTime,
    harrivalTime, required]

end Ekispert

/-- C5: on the success path of `fetchTimeConsumingRoutes` (both stations resolved, date and
times present, the search answered with a candidate list, every segment of a kept candidate
with a station) the list returned has length min(3, number of candidates passing the
filter), so never more than 3, and its entries are the renderings of the first 3 candidates
of the ranked order, in that order. -/
theorem results_are_first_three_ranked (api : Api) (userData : UserData)
    (departureStationCode destinationStationCode date departureTime arrivalTime : String)
    (response : Response CourseResultSet) (found : OneOrMany Course)
    (hdeparture : Ekispert.getStationCode api userData.departure = .ok departureStationCode)
    (hdestination :
      Ekispert.getStationCode api userData.destination = .ok destinationStationCode)
    (hdate : userData.date = some date)
    (hdepartureTime : userData.departureTime = some departureTime)
    (harrivalTime : userData.arrivalTime = some arrivalTime)
    (hsearch : api.search (Ekispert.searchParams api departureStationCode
      destinationStationCode (Ekispert.removeAll '-' date)
      (Ekispert.removeFirst ':' departureTime)) = .ok response)
    (hfound : response.resultOf (·.Course) = some found)
    (hstations : ∀ c ∈ Ekispert.rankCourses userData.selectedRailway userData.selectedRoute
      (Ekispert.removeFirst ':' arrivalTime) found.toArray,
      ∀ line ∈ c.2.Route.Line, line.Station ≠ []) :
    ∃ results,
      Ekispert.fetchTimeConsumingRoutesTry api userData = .ok results ∧
      Ekispert.fetchTimeConsumingRoutes api userData = .ok results ∧
      results.length = min 3 (Ekispert.filterCourses userData.selectedRailway
        userData.selectedRoute (Ekispert.removeFirst ':' arrivalTime)
        found.toArray.enum).length ∧
      results.length ≤ 3 ∧
      List.Forall₂
        (fun course result =>
          Ekispert.renderCourse (Ekispert.sortCourses (Ekispert.filterCourses
            userData.selectedRailway userData.selectedRoute
            (Ekispert.removeFirst ':' arrivalTime) found.toArray.enum)) course = .ok result)
        (slice (Ekispert.sortCourses (Ekispert.filterCourses userData.selectedRailway
          userData.selectedRoute (Ekispert.removeFirst ':' arrivalTime)
          found.toArray.enum)) 3)
        results := by
  obtain ⟨results, hresults⟩ := Ekispert.renderCourses_ok
    (Ekispert.sortCourses (Ekispert.filterCourses userData.selectedRailway
      userData.selectedRoute (Ekispert.removeFirst ':' arrivalTime) found.toArray.enum))
    _ hstations
  have htry : Ekispert.fetchTimeConsumingRoutesTry api userData = .ok results := by
    rw [Ekispert.fetchTimeConsumingRoutesTry_of_answer api userData departureStationCode
      destinationStationCode date departureTime arrivalTime hdeparture hdestination hdate
      hdepartureTime harrivalTime, hsearch]
    simp only []
    rw [Ekispert.resultsOfResponse_found _ _ _ _ found hfound, hresults]
  have hall := Ekispert.renderCourses_eq_ok _ _ _ hresults
  have hlen : results.length = min 3 (Ekispert.filterCourses userData.selectedRailway
      userData.selectedRoute (Ekispert.removeFirst ':' arrivalTime)
      found.toArray.enum).length := by
    rw [← hall.length_eq]
    simp [Ekispert.rankCourses, slice, Ekispert.length_sortCourses]
  refine ⟨results, htry, ?_, hlen, ?_, hall⟩
  · simp [Ekispert.fetchTimeConsumingRoutes, htry]
  · rw [hlen]
    exact Nat.min_le_left _ _

/-- C5, on an answer with five candidates that all pass the filter: three results come back. -/
theorem results_are_first_three_ranked_witness :
    ∃ results,
      Ekispert.fetchTimeConsumingRoutes (sampleApi (.ok (candidateList fiveCandidates)))
        sampleUserData = .ok results ∧
      results.length = 3 := by
  obtain ⟨results, -, h, hlen, -⟩ := results_are_first_three_ranked
    (sampleApi (.ok (candidateList fiveCandidates))) sampleUserData "22828" "22828"
    "2023-03-08" "10:00" "18:00" (candidateList fiveCandidates) (.many fiveCandidates)
    rfl rfl rfl rfl rfl rfl rfl (by decide)
  refine ⟨results, h, ?_⟩
  rw [hlen]
  decide

/-- C9 as stated fails: for an answer of the search that has no candidate list, with both
stations resolved, `fetchTimeConsumingRoutes` does not fail but returns the empty list. -/
theorem missing_candidate_list_returns_empty :
    noCandidateList.resultOf (·.Course) = none ∧
    Ekispert.fetchTimeConsumingRoutesTry (sampleApi (.ok noCandidateList)) sampleUserData =
      .ok [] ∧
    Ekispert.fetchTimeConsumingRoutes (sampleApi (.ok noCandidateList)) sampleUserData =
      .ok [] :=
  ⟨rfl, rfl, rfl⟩

/-- C9, amended: when the search is answered (stations resolved, date and times present), an
answer without a candidate list makes `fetchTimeConsumingRoutes` return the empty list, a
successful zero-result outcome and not an error, the same as an answer whose candidate list
is present but has no candidate passing the filter. -/
theorem no_candidates_is_empty_success (api : Api) (userData : UserData)
    (departureStationCode destinationStationCode date departureTime arrivalTime : String)
    (response : Response CourseResultSet)
    (hdeparture : Ekispert.getStationCode api userData.departure = .ok departureStationCode)
    (hdestination :
      Ekispert.getStationCode api userData.destination = .ok destinationStationCode)
    (hdate : userData.date = some date)
    (hdepartureTime : userData.departureTime = some departureTime)
    (harrivalTime : userData.arrivalTime = some arrivalTime)
    (hsearch : api.search (Ekispert.searchParams api departureStationCode
      destinationStationCode (Ekispert.removeAll '-' date)
      (Ekispert.removeFirst ':' departureTime)) = .ok response)
    (hempty : response.resultOf (·.Course) = none ∨
      ∃ found, response.resultOf (·.Course) = some found ∧
        Ekispert.filterCourses userData.selectedRailway userData.selectedRoute
          (Ekispert.removeFirst ':' arrivalTime) found.toArray.enum = []) :
    Ekispert.fetchTimeConsumingRoutesTry api userData = .ok [] ∧
    Ekispert.fetchTimeConsumingRoutes api userData = .ok [] := by
  have htry : Ekispert.fetchTimeConsumingRoutesTry api userData = .ok [] := by
    rw [Ekispert.fetchTimeConsumingRoutesTry_of_answer api userData departureStationCode
      destinationStationCode date departureTime arrivalTime hdeparture hdestination hdate
      hdepartureTime harrivalTime, hsearch]
    simp only []
    rcases hempty with hnone | ⟨found, hfound, hfilter⟩
    · exact Ekispert.resultsOfResponse_none _ _ _ _ hnone
    · rw [Ekispert.resultsOfResponse_found _ _ _ _ found hfound]
      simp [Ekispert.rankCourses, hfilter, Ekispert.sortCourses, slice,
        Ekispert.sort, Ekispert.renderCourses]
  exact ⟨htry, by simp [Ekispert.fetchTimeConsumingRoutes, htry]⟩

/-- C9 amended, on an answer without a candidate list and on an answer whose only candidate
is run by another operator. -/
theorem no_candidates_is_empty_success_witness :
    Ekispert.fetchTimeConsumingRoutes (sampleApi (.ok noCandidateList)) sampleUserData =
      .ok [] ∧
    Ekispert.fetchTimeConsumingRoutes
      (sampleApi (.ok (candidateList [sampleCourse "Z" "Y" "1700" (some 50)])))
      sampleUserData = .ok [] :=
  ⟨(no_candidates_is_empty_success (sampleApi (.ok noCandidateList)) sampleUserData "22828"
      "22828" "2023-03-08" "10:00" "18:00" noCandidateList rfl rfl rfl rfl rfl rfl
      (Or.inl rfl)).2,
   (no_candidates_is_empty_success
      (sampleApi (.ok (candidateList [sampleCourse "Z" "Y" "1700" (some 50)])))
      sampleUserData "22828" "22828" "2023-03-08" "10:00" "18:00"
      (candidateList [sampleCourse "Z" "Y" "1700" (some 50)]) rfl rfl rfl rfl rfl rfl
      (Or.inr ⟨.many [sampleCourse "Z" "Y" "1700" (some 50)], rfl, by decide⟩)).2⟩

/-- C10 as stated fails: when station resolution fails, and likewise when the search call
fails, `fetchTimeConsumingRoutes` does not fail but returns a list of one entry. -/
theorem upstream_failure_returns_a_list :
    Ekispert.getStationCode unreachableApi sampleUserData.departure =
      .error (.error "Network Error") ∧
    Ekispert.fetchTimeConsumingRoutes unreachableApi sampleUserData =
      .ok [{ title := "ルート例: 東京→横浜",
             description := "申し訳ありませんが、指定された条件での経路検索に失敗しました。",
             details := "APIエラー: Network Error" }] ∧
    Ekispert.fetchTimeConsumingRoutes (sampleApi (.error (.error "Network Error")))
        sampleUserData =
      .ok [{ title := "ルート例: 東京→横浜",
             description := "申し訳ありませんが、指定された条件での経路検索に失敗しました。",
             details := "APIエラー: Network Error" }] := by
  refine ⟨rfl, ?_, ?_⟩ <;> rfl

/-- C10, amended: when the resolution of the departure station, the resolution of the
destination station or the search call fails, the `try` block of `fetchTimeConsumingRoutes`
fails with that one error, and the function catches it: nothing reaches the caller as an
error, and the list returned has exactly one entry, the fallback entry whose details carry
the message of the error. -/
theorem upstream_failure_gives_fallback (api : Api) (userData : UserData) (error : JsError)
    (hfail : Ekispert.getStationCode api userData.departure = .error error ∨
      (∃ departureStationCode,
        Ekispert.getStationCode api userData.departure = .ok departureStationCode ∧
        Ekispert.getStationCode api userData.destination = .error error) ∨
      (∃ departureStationCode destinationStationCode date departureTime arrivalTime,
        Ekispert.getStationCode api userData.departure = .ok departureStationCode ∧
        Ekispert.getStationCode api userData.destination = .ok destinationStationCode ∧
        userData.date = some date ∧ userData.departureTime = some departureTime ∧
        userData.arrivalTime = some arrivalTime ∧
        api.search (Ekispert.searchParams api departureStationCode destinationStationCode
          (Ekispert.removeAll '-' date) (Ekispert.removeFirst ':' departureTime)) =
          .error error)) :
    Ekispert.fetchTimeConsumingRoutesTry api userData = .error error ∧
    Ekispert.fetchTimeConsumingRoutes api userData =
      .ok [{ title := "ルート例: 東京→横浜",
             description := "申し訳ありませんが、指定された条件での経路検索に失敗しました。",
             details := "APIエラー: " ++ error.message }] := by
  have htry : Ekispert.fetchTimeConsumingRoutesTry api userData = .error error := by
    rcases hfail with h | ⟨dep, h1, h2⟩ | ⟨dep, dst, date, dt, at_, h1, h2, h3, h4, h5, h6⟩
    · simp [Ekispert.fetchTimeConsumingRoutesTry, h]
    · simp [Ekispert.fetchTimeConsumingRoutesTry, h1, h2]
    · rw [Ekispert.fetchTimeConsumingRoutesTry_of_answer api userData dep dst date dt at_
        h1 h2 h3 h4 h5, h6]
  exact ⟨htry, by simp [Ekispert.fetchTimeConsumingRoutes, htry, Ekispert.fallbackRoutes]⟩

/-- C10 amended, on a routing API that cannot be reached. -/
theorem upstream_failure_gives_fallback_witness :
    Ekispert.fetchTimeConsumingRoutesTry unreachableApi sampleUserData =
      .error (.error "Network Error") ∧
    Ekispert.fetchTimeConsumingRoutes unreachableApi sampleUserData =
      .ok [{ title := "ルート例: 東京→横浜",
             description := "申し訳ありませんが、指定された条件での経路検索に失敗しました。",
             details := "APIエラー: " ++ (JsError.error "Network Error").message }] :=
  upstream_failure_gives_fallback unreachableApi sampleUserData (.error "Network Error")
    (Or.inl rfl)

/-! ## The state machine: search outcomes, captured fields, idle prompt -/

/-- C11 as stated fails: an answer of the search without a candidate list, which the
specification counts as an upstream failure, is rendered exactly as an answer whose
candidate list is empty: in both cases the summary message alone is sent. -/
theorem missing_list_renders_as_zero_candidates :
    noCandidateList.resultOf (·.Course) = none ∧
    (processUserInput (Ekispert.services (sampleApi (.ok noCandidateList)))
        sessionAtRouteChoice "Y").2 =
      [Message.text "以下の3つのルートがオススメです！乗り鉄を楽しんでください！"] ∧
    (processUserInput (Ekispert.services (sampleApi (.ok (candidateList []))))
        sessionAtRouteChoice "Y").2 =
      [Message.text "以下の3つのルートがオススメです！乗り鉄を楽しんでください！"] ∧
    (processUserInput (Ekispert.services (sampleApi (.ok noCandidateList)))
        sessionAtRouteChoice "Y").2 =
      (processUserInput (Ekispert.services (sampleApi (.ok (candidateList []))))
        sessionAtRouteChoice "Y").2 := by
  decide

/-- C11, amended: at the line-choice step, a search that returns the empty list (no
candidate passes the filter, or the answer has no candidate list) sends the summary message
alone, and this differs from what is sent when the search fails with an error, whether the
error reaches `processUserInput` thrown or as the fallback entry that
`fetchTimeConsumingRoutes` of `src/ekispert-api.js` returns from its `catch` block. -/
theorem empty_result_differs_from_failure (svcEmpty svcFail : Services) (s s' : Session)
    (t t' : String) (error : JsError)
    (hs : s.state = STATE.SELECT_ROUTE) (hs' : s'.state = STATE.SELECT_ROUTE)
    (ht : t ≠ "出発") (ht' : t' ≠ "出発")
    (hempty : svcEmpty.fetchTimeConsumingRoutes { s.data with selectedRoute := some t } =
      .ok [])
    (hfail :
      svcFail.fetchTimeConsumingRoutes { s'.data with selectedRoute := some t' } =
        .error error ∨
      svcFail.fetchTimeConsumingRoutes { s'.data with selectedRoute := some t' } =
        .ok (Ekispert.fallbackRoutes error)) :
    (processUserInput svcEmpty s t).2 =
      [Message.text "以下の3つのルートがオススメです！乗り鉄を楽しんでください！"] ∧
    (processUserInput svcEmpty s t).2 ≠ (processUserInput svcFail s' t').2 := by
  rw [processUserInput_SELECT_ROUTE svcEmpty s t ht hs, hempty,
    processUserInput_SELECT_ROUTE svcFail s' t' ht' hs']
  refine ⟨rfl, ?_⟩
  rcases hfail with h | h
  · rw [h]
    simp only [createRouteResultsMessage, List.map_nil]
    decide
  · rw [h]
    intro heq
    have hlen := congrArg List.length heq
    simp [createRouteResultsMessage, Ekispert.fallbackRoutes] at hlen

/-- C11 amended, with the services of `src/ekispert-api.js`: an answer of the search without
a candidate list against a routing API that cannot be reached. -/
theorem empty_result_differs_from_failure_witness :
    (processUserInput (Ekispert.services (sampleApi (.ok noCandidateList)))
        sessionAtRouteChoice "Y").2 ≠
      (processUserInput (Ekispert.services unreachableApi) sessionAtRouteChoice "Y").2 :=
  (empty_result_differs_from_failure (Ekispert.services (sampleApi (.ok noCandidateList)))
    (Ekispert.services unreachableApi) sessionAtRouteChoice sessionAtRouteChoice "Y" "Y"
    (.error "Network Error") rfl rfl (by decide) (by decide) rfl (Or.inr rfl)).2

/-- C13: for a session whose state is IDLE, or any value that is none of the seven input
states, and a text that is not the start keyword, exactly the idle prompt is sent and the
session, state and fields, is left as it was. -/
theorem idle_prompt_leaves_session (svc : Services) (s : Session) (t : String)
    (ht : t ≠ "出発")
    (h1 : s.state ≠ STATE.INPUT_DEPARTURE) (h2 : s.state ≠ STATE.INPUT_DESTINATION)
    (h3 : s.state ≠ STATE.INPUT_DATE) (h4 : s.state ≠ STATE.INPUT_DEPARTURE_TIME)
    (h5 : s.state ≠ STATE.INPUT_ARRIVAL_TIME) (h6 : s.state ≠ STATE.SELECT_RAILWAY)
    (h7 : s.state ≠ STATE.SELECT_ROUTE) :
    processUserInput svc s t =
      (s, [Message.text "「出発」と入力して、旅行計画を始めましょう！"]) := by
  simp [processUserInput, ht, h1, h2, h3, h4, h5, h6, h7]

/-- C13, at the session of a user seen for the first time. -/
theorem idle_prompt_leaves_session_witness :
    processUserInput placeholderServices initialSession "こんにちは" =
      (initialSession, [Message.text "「出発」と入力して、旅行計画を始めましょう！"]) :=
  idle_prompt_leaves_session placeholderServices initialSession "こんにちは" (by decide)
    (by decide) (by decide) (by decide) (by decide) (by decide) (by decide) (by decide)

/-! ## The result messages and the station resolver -/

/-- C16: for a list of n results `createRouteResultsMessage` returns n + 1 text messages: the
summary first, then for each result, in input order, the message whose text is the title, a
newline, the description, a blank line and the details. -/
theorem result_messages_shape (routes : List RouteResult) :
    (createRouteResultsMessage routes).length = routes.length + 1 ∧
    (createRouteResultsMessage routes)[0]? =
      some (Message.text "以下の3つのルートがオススメです！乗り鉄を楽しんでください！") ∧
    (∀ i route, routes[i]? = some route →
      (createRouteResultsMessage routes)[i + 1]? =
        some (Message.text
          (route.title ++ "\n" ++ route.description ++ "\n\n" ++ route.details))) ∧
    createRouteResultsMessage twoResults =
      [Message.text "以下の3つのルートがオススメです！乗り鉄を楽しんでください！",
       Message.text "ルート1: 東京→横浜\n出発: 10:00 → 到着: 17:45\n\n東京 [Y] → 横浜",
       Message.text "ルート2: 東京→横浜\n出発: 10:00 → 到着: 18:00\n\n東京 [K] → 横浜"] := by
  refine ⟨by simp [createRouteResultsMessage], by simp [createRouteResultsMessage], ?_,
    by decide⟩
  intro i route hroute
  simp [createRouteResultsMessage, hroute]

/-- C17: when the station search is answered, `getStationCode` returns the code of the first
match if the answer has at least one match, a single match object counting as a list of one,
and fails with the not-found error if the answer has no match. -/
theorem station_code_is_first_match (api : Api) (stationName : Option String)
    (response : Response StationResultSet) (hresponse : api.station stationName = .ok response) :
    (∀ point first rest, response.resultOf (·.Point) = some point →
      point.toArray = first :: rest →
      Ekispert.getStationCode api stationName = .ok first.Station.code) ∧
    (∀ only, response.resultOf (·.Point) = some (.one only) →
      Ekispert.getStationCode api stationName = .ok only.Station.code) ∧
    (response.resultOf (·.Point) = none ∨ response.resultOf (·.Point) = some (.many []) →
      Ekispert.getStationCode api stationName =
        .error (.error ("Station \"" ++ Ekispert.templateText stationName ++
          "\" not found"))) := by
  refine ⟨?_, ?_, ?_⟩
  · intro point first rest hpoint harray
    simp [Ekispert.getStationCode, hresponse, hpoint, harray]
  · intro only hpoint
    simp [Ekispert.getStationCode, hresponse, hpoint, OneOrMany.toArray]
  · rintro (hpoint | hpoint)
    · simp [Ekispert.getStationCode, hresponse, hpoint]
    · simp [Ekispert.getStationCode, hresponse, hpoint, OneOrMany.toArray]

/-- C17, on an answer with two matches, on an answer with a single match object and on an
answer with an empty array of matches. -/
theorem station_code_is_first_match_witness :
    Ekispert.getStationCode (stationApi twoStationsFound) (some "東京") = .ok "22828" ∧
    Ekispert.getStationCode (stationApi stationFound) (some "東京") = .ok "22828" ∧
    Ekispert.getStationCode (stationApi noStationFound) (some "東京") =
      .error (.error ("Station \"" ++ Ekispert.templateText (some "東京") ++ "\" not found")) :=
  ⟨(station_code_is_first_match (stationApi twoStationsFound) (some "東京") twoStationsFound
      rfl).1 _ { Station := { code := "22828" } } [{ Station := { code := "23368" } }] rfl rfl,
   (station_code_is_first_match (stationApi stationFound) (some "東京") stationFound
      rfl).2.1 { Station := { code := "22828" } } rfl,
   (station_code_is_first_match (stationApi noStationFound) (some "東京") noStationFound
      rfl).2.2 (Or.inr rfl)⟩

/-! ## The captured fields along a cycle -/

section CapturedFields

variable (svc : Services)

theorem processUserInput_INPUT_DEPARTURE (s : Session) (t : String) (ht : t ≠ "出発")
    (hs : s.state = STATE.INPUT_DEPARTURE) :
    processUserInput svc s t =
      ({ state := STATE.INPUT_DESTINATION, data := { s.data with departure := some t } },
       [Message.text "目的駅を入力してください"]) := by
  simp [processUserInput, ht, hs]

theorem processUserInput_INPUT_DESTINATION (s : Session) (t : String) (ht : t ≠ "出発")
    (hs : s.state = STATE.INPUT_DESTINATION) :
    processUserInput svc s t =
      ({ state := STATE.INPUT_DATE, data := { s.data with destination := some t } },
       [Message.text "出発日を入力してください（例: 2023-03-08）"]) := by
  simp [processUserInput, ht, hs, STATE.INPUT_DESTINATION, STATE.INPUT_DEPARTURE]

theorem processUserInput_INPUT_DATE (s : Session) (t : String) (ht : t ≠ "出発")
    (hs : s.state = STATE.INPUT_DATE) :
    processUserInput svc s t =
      ({ state := STATE.INPUT_DEPARTURE_TIME, data := { s.data with date := some t } },
       [Message.text "出発時刻を入力してください（例: 10:00）"]) := by
  simp [processUserInput, ht, hs, STATE.INPUT_DESTINATION, STATE.INPUT_DEPARTURE,
    STATE.INPUT_DATE]

theorem processUserInput_INPUT_DEPARTURE_TIME (s : Session) (t : String) (ht : t ≠ "出発")
    (hs : s.state = STATE.INPUT_DEPARTURE_TIME) :
    processUserInput svc s t =
      ({ state := STATE.INPUT_ARRIVAL_TIME,
         data := { s.data with departureTime := some t } },
       [Message.text "到着時刻を入力してください（例: 18:00）"]) := by
  simp [processUserInput, ht, hs, STATE.INPUT_DESTINATION, STATE.INPUT_DEPARTURE,
    STATE.INPUT_DATE, STATE.INPUT_DEPARTURE_TIME]

theorem data_after_INPUT_ARRIVAL_TIME (s : Session) (t : String) (ht : t ≠ "出発")
    (hs : s.state = STATE.INPUT_ARRIVAL_TIME) :
    (processUserInput svc s t).1.data = { s.data with arrivalTime := some t } := by
  rw [processUserInput_INPUT_ARRIVAL_TIME svc s t ht hs]
  cases svc.fetchAvailableRailways { s.data with arrivalTime := some t } <;> rfl

theorem data_after_SELECT_RAILWAY (s : Session) (t : String) (ht : t ≠ "出発")
    (hs : s.state = STATE.SELECT_RAILWAY) :
    (processUserInput svc s t).1.data = { s.data with selectedRailway := some t } := by
  rw [processUserInput_SELECT_RAILWAY svc s t ht hs]
  cases svc.fetchRoutesByRailway t <;> rfl

theorem data_after_SELECT_ROUTE (s : Session) (t : String) (ht : t ≠ "出発")
    (hs : s.state = STATE.SELECT_ROUTE) :
    (processUserInput svc s t).1.data = { s.data with selectedRoute := some t } := by
  rw [processUserInput_SELECT_ROUTE svc s t ht hs]
  cases svc.fetchTimeConsumingRoutes { s.data with selectedRoute := some t } <;> rfl

theorem fieldsFollowState_of_IDLE (data : UserData) :
    FieldsFollowState { state := STATE.IDLE, data := data } := by
  simp [FieldsFollowState, STATE.IDLE, STATE.INPUT_DESTINATION, STATE.INPUT_DEPARTURE,
    STATE.INPUT_DATE, STATE.INPUT_DEPARTURE_TIME, STATE.INPUT_ARRIVAL_TIME,
    STATE.SELECT_RAILWAY, STATE.SELECT_ROUTE]

theorem fieldsFollowState_step (s : Session) (t : String) (h : FieldsFollowState s) :
    FieldsFollowState (processUserInput svc s t).1 := by
  obtain ⟨i1, i2, i3, i4, i5, i6, i7⟩ := h
  by_cases ht : t = "出発"
  · subst ht
    rw [processUserInput_start]
    simp [FieldsFollowState, STATE.INPUT_DESTINATION, STATE.INPUT_DEPARTURE,
      STATE.INPUT_DATE, STATE.INPUT_DEPARTURE_TIME, STATE.INPUT_ARRIVAL_TIME,
      STATE.SELECT_RAILWAY, STATE.SELECT_ROUTE]
  by_cases h1 : s.state = STATE.INPUT_DEPARTURE
  · rw [processUserInput_INPUT_DEPARTURE svc s t ht h1, i1 h1]
    simp [FieldsFollowState, STATE.INPUT_DESTINATION, STATE.INPUT_DEPARTURE,
      STATE.INPUT_DATE, STATE.INPUT_DEPARTURE_TIME, STATE.INPUT_ARRIVAL_TIME,
      STATE.SELECT_RAILWAY, STATE.SELECT_ROUTE]
  by_cases h2 : s.state = STATE.INPUT_DESTINATION
  · obtain ⟨a, ha⟩ := i2 h2
    rw [processUserInput_INPUT_DESTINATION svc s t ht h2, ha]
    simp [FieldsFollowState, STATE.INPUT_DESTINATION, STATE.INPUT_DEPARTURE,
      STATE.INPUT_DATE, STATE.INPUT_DEPARTURE_TIME, STATE.INPUT_ARRIVAL_TIME,
      STATE.SELECT_RAILWAY, STATE.SELECT_ROUTE]
  by_cases h3 : s.state = STATE.INPUT_DATE
  · obtain ⟨a, b, ha⟩ := i3 h3
    rw [processUserInput_INPUT_DATE svc s t ht h3, ha]
    simp [FieldsFollowState, STATE.INPUT_DESTINATION, STATE.INPUT_DEPARTURE,
      STATE.INPUT_DATE, STATE.INPUT_DEPARTURE_TIME, STATE.INPUT_ARRIVAL_TIME,
      STATE.SELECT_RAILWAY, STATE.SELECT_ROUTE]
  by_cases h4 : s.state = STATE.INPUT_DEPARTURE_TIME
  · obtain ⟨a, b, c, ha⟩ := i4 h4
    rw [processUserInput_INPUT_DEPARTURE_TIME svc s t ht h4, ha]
    simp [FieldsFollowState, STATE.INPUT_DESTINATION, STATE.INPUT_DEPARTURE,
      STATE.INPUT_DATE, STATE.INPUT_DEPARTURE_TIME, STATE.INPUT_ARRIVAL_TIME,
      STATE.SELECT_RAILWAY, STATE.SELECT_ROUTE]
  by_cases h5 : s.state = STATE.INPUT_ARRIVAL_TIME
  · obtain ⟨a, b, c, d, ha⟩ := i5 h5
    rw [processUserInput_INPUT_ARRIVAL_TIME svc s t ht h5]
    cases svc.fetchAvailableRailways { s.data with arrivalTime := some t } with
    | error e => exact fieldsFollowState_of_IDLE _
    | ok railways =>
      simp [FieldsFollowState, ha, STATE.INPUT_DESTINATION, STATE.INPUT_DEPARTURE,
        STATE.INPUT_DATE, STATE.INPUT_DEPARTURE_TIME, STATE.INPUT_ARRIVAL_TIME,
        STATE.SELECT_RAILWAY, STATE.SELECT_ROUTE]
  by_cases h6 : s.state = STATE.SELECT_RAILWAY
  · obtain ⟨a, b, c, d, e, ha⟩ := i6 h6
    rw [processUserInput_SELECT_RAILWAY svc s t ht h6]
    cases svc.fetchRoutesByRailway t with
    | error e => exact fieldsFollowState_of_IDLE _
    | ok routes =>
      simp [FieldsFollowState, ha, STATE.INPUT_DESTINATION, STATE.INPUT_DEPARTURE,
        STATE.INPUT_DATE, STATE.INPUT_DEPARTURE_TIME, STATE.INPUT_ARRIVAL_TIME,
        STATE.SELECT_RAILWAY, STATE.SELECT_ROUTE]
  by_cases h7 : s.state = STATE.SELECT_ROUTE
  · rw [processUserInput_SELECT_ROUTE svc s t ht h7]
    cases svc.fetchTimeConsumingRoutes { s.data with selectedRoute := some t } <;>
      exact fieldsFollowState_of_IDLE _
  · have hsame : processUserInput svc s t =
        (s, [Message.text "「出発」と入力して、旅行計画を始めましょう！"]) := by
      simp [processUserInput, ht, h1, h2, h3, h4, h5, h6, h7]
    rw [hsame]
    exact ⟨i1, i2, i3, i4, i5, i6, i7⟩

end CapturedFields

theorem fieldsFollowState_of_reachable (s : Session) (h : Reachable s) :
    FieldsFollowState s := by
  induction h with
  | initial => exact fieldsFollowState_of_IDLE _
  | step svc s text _ ih => exact fieldsFollowState_step svc s text ih

theorem reachable_sessionAfter (svc : Services) (texts : List String) (s : Session)
    (h : Reachable s) : Reachable (sessionAfter svc s texts) := by
  induction texts generalizing s with
  | nil => exact h
  | cons text rest ih => exact ih _ (Reachable.step svc s text h)

theorem lookup_kept_of_unset (data data' : UserData) (name value : String)
    (h : data.lookup name = some value)
    (h1 : data.departure = none ∨ data'.departure = data.departure)
    (h2 : data.destination = none ∨ data'.destination = data.destination)
    (h3 : data.date = none ∨ data'.date = data.date)
    (h4 : data.departureTime = none ∨ data'.departureTime = data.departureTime)
    (h5 : data.arrivalTime = none ∨ data'.arrivalTime = data.arrivalTime)
    (h6 : data.selectedRailway = none ∨ data'.selectedRailway = data.selectedRailway)
    (h7 : data.selectedRoute = none ∨ data'.selectedRoute = data.selectedRoute) :
    data'.lookup name = some value := by
  unfold UserData.lookup at h ⊢
  split_ifs at h ⊢
  · rcases h1 with h1 | h1
    · rw [h1] at h; cases h
    · rw [h1]; exact h
  · rcases h2 with h2 | h2
    · rw [h2] at h; cases h
    · rw [h2]; exact h
  · rcases h3 with h3 | h3
    · rw [h3] at h; cases h
    · rw [h3]; exact h
  · rcases h4 with h4 | h4
    · rw [h4] at h; cases h
    · rw [h4]; exact h
  · rcases h5 with h5 | h5
    · rw [h5] at h; cases h
    · rw [h5]; exact h
  · rcases h6 with h6 | h6
    · rw [h6] at h; cases h
    · rw [h6]; exact h
  · rcases h7 with h7 | h7
    · rw [h7] at h; cases h
    · rw [h7]; exact h

theorem lookup_kept_of_followState (svc : Services) (s : Session) (t : String)
    (ht : t ≠ "出発") (h : FieldsFollowState s) (name value : String)
    (hvalue : s.data.lookup name = some value) :
    (processUserInput svc s t).1.data.lookup name = some value := by
  obtain ⟨i1, i2, i3, i4, i5, i6, i7⟩ := h
  by_cases h1 : s.state = STATE.INPUT_DEPARTURE
  · refine lookup_kept_of_unset _ _ name value hvalue ?_ ?_ ?_ ?_ ?_ ?_ ?_ <;>
      simp [processUserInput_INPUT_DEPARTURE svc s t ht h1, i1 h1]
  by_cases h2 : s.state = STATE.INPUT_DESTINATION
  · obtain ⟨a, ha⟩ := i2 h2
    refine lookup_kept_of_unset _ _ name value hvalue ?_ ?_ ?_ ?_ ?_ ?_ ?_ <;>
      simp [processUserInput_INPUT_DESTINATION svc s t ht h2, ha]
  by_cases h3 : s.state = STATE.INPUT_DATE
  · obtain ⟨a, b, ha⟩ := i3 h3
    refine lookup_kept_of_unset _ _ name value hvalue ?_ ?_ ?_ ?_ ?_ ?_ ?_ <;>
      simp [processUserInput_INPUT_DATE svc s t ht h3, ha]
  by_cases h4 : s.state = STATE.INPUT_DEPARTURE_TIME
  · obtain ⟨a, b, c, ha⟩ := i4 h4
    refine lookup_kept_of_unset _ _ name value hvalue ?_ ?_ ?_ ?_ ?_ ?_ ?_ <;>
      simp [processUserInput_INPUT_DEPARTURE_TIME svc s t ht h4, ha]
  by_cases h5 : s.state = STATE.INPUT_ARRIVAL_TIME
  · obtain ⟨a, b, c, d, ha⟩ := i5 h5
    refine lookup_kept_of_unset _ _ name value hvalue ?_ ?_ ?_ ?_ ?_ ?_ ?_ <;>
      simp [data_after_INPUT_ARRIVAL_TIME svc s t ht h5, ha]
  by_cases h6 : s.state = STATE.SELECT_RAILWAY
  · obtain ⟨a, b, c, d, e, ha⟩ := i6 h6
    refine lookup_kept_of_unset _ _ name value hvalue ?_ ?_ ?_ ?_ ?_ ?_ ?_ <;>
      simp [data_after_SELECT_RAILWAY svc s t ht h6, ha]
  by_cases h7 : s.state = STATE.SELECT_ROUTE
  · obtain ⟨a, b, c, d, e, f, ha⟩ := i7 h7
    refine lookup_kept_of_unset _ _ name value hvalue ?_ ?_ ?_ ?_ ?_ ?_ ?_ <;>
      simp [data_after_SELECT_ROUTE svc s t ht h7, ha]
  · have hsame : processUserInput svc s t =
        (s, [Message.text "「出発」と入力して、旅行計画を始めましょう！"]) := by
      simp [processUserInput, ht, h1, h2, h3, h4, h5, h6, h7]
    rw [hsame]
    exact hvalue

/-- C12: for a text that is not the start keyword, each of the seven input states stores the
text under its own field and leaves every other field as it was; and in a session reachable
from the initial one such a text never removes or changes a field that is captured: every
field with a value keeps that value. -/
theorem fields_accumulate (svc : Services) (s : Session) (t : String) (ht : t ≠ "出発") :
    (s.state = STATE.INPUT_DEPARTURE →
      (processUserInput svc s t).1.data = { s.data with departure := some t }) ∧
    (s.state = STATE.INPUT_DESTINATION →
      (processUserInput svc s t).1.data = { s.data with destination := some t }) ∧
    (s.state = STATE.INPUT_DATE →
      (processUserInput svc s t).1.data = { s.data with date := some t }) ∧
    (s.state = STATE.INPUT_DEPARTURE_TIME →
      (processUserInput svc s t).1.data = { s.data with departureTime := some t }) ∧
    (s.state = STATE.INPUT_ARRIVAL_TIME →
      (processUserInput svc s t).1.data = { s.data with arrivalTime := some t }) ∧
    (s.state = STATE.SELECT_RAILWAY →
      (processUserInput svc s t).1.data = { s.data with selectedRailway := some t }) ∧
    (s.state = STATE.SELECT_ROUTE →
      (processUserInput svc s t).1.data = { s.data with selectedRoute := some t }) ∧
    (Reachable s → ∀ name value, s.data.lookup name = some value →
      (processUserInput svc s t).1.data.lookup name = some value) := by
  refine ⟨fun h => ?_, fun h => ?_, fun h => ?_, fun h => ?_, fun h => ?_, fun h => ?_,
    fun h => ?_, fun h name value hvalue => ?_⟩
  · rw [processUserInput_INPUT_DEPARTURE svc s t ht h]
  · rw [processUserInput_INPUT_DESTINATION svc s t ht h]
  · rw [processUserInput_INPUT_DATE svc s t ht h]
  · rw [processUserInput_INPUT_DEPARTURE_TIME svc s t ht h]
  · exact data_after_INPUT_ARRIVAL_TIME svc s t ht h
  · exact data_after_SELECT_RAILWAY svc s t ht h
  · exact data_after_SELECT_ROUTE svc s t ht h
  · exact lookup_kept_of_followState svc s t ht (fieldsFollowState_of_reachable s h) name
      value hvalue

/-- C12, in the session reached by the start keyword and two answers: the date is stored and
the departure captured before is kept. -/
theorem fields_accumulate_witness :
    (processUserInput placeholderServices
        (sessionAfter placeholderServices initialSession textsUpToDate)
        "2023-03-08").1.data =
      { departure := some "東京", destination := some "横浜", date := some "2023-03-08" } ∧
    (processUserInput placeholderServices
        (sessionAfter placeholderServices initialSession textsUpToDate)
        "2023-03-08").1.data.lookup "departure" = some "東京" :=
  ⟨(fields_accumulate placeholderServices
      (sessionAfter placeholderServices initialSession textsUpToDate) "2023-03-08"
      (by decide)).2.2.1 rfl,
   (fields_accumulate placeholderServices
      (sessionAfter placeholderServices initialSession textsUpToDate) "2023-03-08"
      (by decide)).2.2.2.2.2.2.2
      (reachable_sessionAfter placeholderServices textsUpToDate initialSession
        Reachable.initial) "departure" "東京" rfl⟩

/-- C20: in a session reachable from the initial one, when a text that is not the start
keyword arrives in state SELECT_ROUTE, the route search is called with a field mapping that
holds all seven fields, so the reformatting of the date and of the two times finds a value
each. -/
theorem search_receives_all_fields (svc : Services) (s : Session) (t : String)
    (hreach : Reachable s) (hs : s.state = STATE.SELECT_ROUTE) (ht : t ≠ "出発") :
    ∃ a b c d e f,
      processUserInput svc s t =
        (match svc.fetchTimeConsumingRoutes
            { departure := some a, destination := some b, date := some c,
              departureTime := some d, arrivalTime := some e, selectedRailway := some f,
              selectedRoute := some t } with
         | .ok timeConsumingRoutes =>
           ({ state := STATE.IDLE,
              data := { departure := some a, destination := some b, date := some c,
                        departureTime := some d, arrivalTime := some e,
                        selectedRailway := some f, selectedRoute := some t } },
            createRouteResultsMessage timeConsumingRoutes)
         | .error _ =>
           ({ state := STATE.IDLE,
              data := { departure := some a, destination := some b, date := some c,
                        departureTime := some d, arrivalTime := some e,
                        selectedRailway := some f, selectedRoute := some t } },
            [Message.text "ルートの取得に失敗しました。もう一度お試しください。"])) ∧
      Ekispert.required "replace"
        ({ s.data with selectedRoute := some t } : UserData).date = .ok c ∧
      Ekispert.required "replace"
        ({ s.data with selectedRoute := some t } : UserData).departureTime = .ok d ∧
      Ekispert.required "replace"
        ({ s.data with selectedRoute := some t } : UserData).arrivalTime = .ok e := by
  obtain ⟨a, b, c, d, e, f, hdata⟩ := (fieldsFollowState_of_reachable s hreach).2.2.2.2.2.2 hs
  refine ⟨a, b, c, d, e, f, ?_, ?_, ?_, ?_⟩
  · rw [processUserInput_SELECT_ROUTE svc s t ht hs, hdata]
  · rw [hdata]; rfl
  · rw [hdata]; rfl
  · rw [hdata]; rfl

/-- C20, in the session reached by the start keyword and six answers: the state is
SELECT_ROUTE and the date and the two times handed to the search have a value each. -/
theorem search_receives_all_fields_witness :
    (sessionAfter placeholderServices initialSession textsUpToRouteChoice).state =
      STATE.SELECT_ROUTE ∧
    ∃ c d e,
      Ekispert.required "replace"
        ({ (sessionAfter placeholderServices initialSession textsUpToRouteChoice).data with
           selectedRoute := some "山手線" } : UserData).date = .ok c ∧
      Ekispert.required "replace"
        ({ (sessionAfter placeholderServices initialSession textsUpToRouteChoice).data with
           selectedRoute := some "山手線" } : UserData).departureTime = .ok d ∧
      Ekispert.required "replace"
        ({ (sessionAfter placeholderServices initialSession textsUpToRouteChoice).data with
           selectedRoute := some "山手線" } : UserData).arrivalTime = .ok e := by
  refine ⟨rfl, ?_⟩
  obtain ⟨a, b, c, d, e, f, -, h1, h2, h3⟩ := search_receives_all_fields placeholderServices
    (sessionAfter placeholderServices initialSession textsUpToRouteChoice) "山手線"
    (reachable_sessionAfter placeholderServices textsUpToRouteChoice initialSession
      Reachable.initial) rfl (by decide)
  exact ⟨c, d, e, h1, h2, h3⟩

/-! ## Rendering: rank in the title, segment path in the details -/

namespace Ekispert

theorem findIdx?_of_nodup_refs (l : List CourseRef) (i start : Nat) (course : CourseRef)
    (hnd : (l.map Prod.fst).Nodup) (hi : l[i]? = some course) :
    l.findIdx? (fun other => other.1 == course.1) start = some (start + i) := by
  induction l generalizing i start with
  | nil => simp at hi
  | cons x xs ih =>
    rw [List.map_cons, List.nodup_cons] at hnd
    cases i with
    | zero =>
      simp only [List.getElem?_cons_zero, Option.some.injEq] at hi
      subst hi
      simp [List.findIdx?_cons]
    | succ j =>
      simp only [List.getElem?_cons_succ] at hi
      have hmem : course ∈ xs := List.getElem?_mem hi
      have hne : (x.1 == course.1) = false := by
        rw [beq_eq_false_iff_ne]
        intro heq
        exact hnd.1 (heq ▸ List.mem_map_of_mem Prod.fst hmem)
      rw [List.findIdx?_cons, hne]
      simp only [Bool.false_eq_true, if_false]
      rw [ih j (start + 1) hnd.2 hi]
      congr 1
      omega

theorem indexOf_of_nodup_refs (l : List CourseRef) (i : Nat) (course : CourseRef)
    (hnd : (l.map Prod.fst).Nodup) (hi : l[i]? = some course) :
    indexOf l course = (i : Int) := by
  unfold indexOf
  rw [findIdx?_of_nodup_refs l i 0 course hnd hi]
  simp

theorem nodup_refs_sorted (railwayName routeName : Option String) (arrivalTime : String)
    (courses : List Course) :
    ((sortCourses (filterCourses railwayName routeName arrivalTime courses.enum)).map
      Prod.fst).Nodup := by
  have hperm := (sortCourses_perm
    (filterCourses railwayName routeName arrivalTime courses.enum)).map Prod.fst
  rw [hperm.nodup_iff]
  have hsub : List.Sublist
      ((filterCourses railwayName routeName arrivalTime courses.enum).map Prod.fst)
      (courses.enum.map Prod.fst) :=
    List.Sublist.map _ (List.filter_sublist _)
  refine List.Nodup.sublist hsub ?_
  rw [List.enum_map_fst]
  exact List.nodup_range _

theorem renderCourse_title (sortedCourses : List CourseRef) (course : CourseRef)
    (result : RouteResult) (h : renderCourse sortedCourses course = .ok result) :
    result.title = "ルート" ++ toString (indexOf sortedCourses course + 1) ++ ": " ++
      course.2.Route.Departure.Station.Name ++ "→" ++ course.2.Route.Arrival.Station.Name := by
  unfold renderCourse at h
  cases hd : routeDetails course.2.Route.Line with
  | error e => simp [hd] at h
  | ok details =>
    simp only [hd, Except.ok.injEq] at h
    rw [← h]

theorem forall₂_getElem? {α β : Type} (R : α → β → Prop) (l : List α) (r : List β)
    (h : List.Forall₂ R l r) (i : Nat) (a : α) (hi : l[i]? = some a) :
    ∃ b, r[i]? = some b ∧ R a b := by
  induction h generalizing i with
  | nil => simp at hi
  | cons hab _ ih =>
    cases i with
    | zero =>
      simp only [List.getElem?_cons_zero, Option.some.injEq] at hi
      subst hi
      exact ⟨_, by simp, hab⟩
    | succ j =>
      simp only [List.getElem?_cons_succ] at hi
      simpa using ih j hi

theorem getElem?_of_slice {α : Type} (l : List α) (n i : Nat) (a : α)
    (h : (slice l n)[i]? = some a) : l[i]? = some a := by
  unfold slice at h
  rw [List.getElem?_take] at h
  split_ifs at h
  exact h

theorem toString_rank (i : Nat) : toString ((i : Int) + 1) = toString (i + 1) := by
  have h : ((i : Int) + 1) = Int.ofNat (i + 1) := by simp
  rw [h]
  rfl

theorem segmentTexts_pieces (lines : List Line) (h : ∀ line ∈ lines, line.Station ≠ []) :
    ∃ pieces, segmentTexts lines = .ok pieces ∧
      List.Forall₂
        (fun line piece => ∃ first last,
          line.Station.head? = some first ∧ line.Station.getLast? = some last ∧
          piece = first.Name ++ " [" ++ line.Name ++ "] → " ++ last.Name)
        lines pieces := by
  induction lines with
  | nil => exact ⟨[], rfl, List.Forall₂.nil⟩
  | cons line rest ih =>
    obtain ⟨pieces, hpieces, hall⟩ := ih (fun l hl => h l (List.mem_cons_of_mem _ hl))
    have hne := h line (List.mem_cons_self _ _)
    cases hs : line.Station with
    | nil => exact absurd hs hne
    | cons x xs =>
      cases hl : (x :: xs).getLast? with
      | none => simp at hl
      | some last =>
        refine ⟨(x.Name ++ " [" ++ line.Name ++ "] → " ++ last.Name) :: pieces, ?_,
          List.Forall₂.cons ⟨x, last, by simp [hs], by rw [hs, hl], rfl⟩ hall⟩
        simp [segmentTexts, segmentText, hs, hl, hpieces]

theorem success_path_results (api : Api) (userData : UserData)
    (departureStationCode destinationStationCode date departureTime arrivalTime : String)
    (response : Response CourseResultSet) (found : OneOrMany Course)
    (hdeparture : getStationCode api userData.departure = .ok departureStationCode)
    (hdestination : getStationCode api userData.destination = .ok destinationStationCode)
    (hdate : userData.date = some date)
    (hdepartureTime : userData.departureTime = some departureTime)
    (harrivalTime : userData.arrivalTime = some arrivalTime)
    (hsearch : api.search (searchParams api departureStationCode destinationStationCode
      (removeAll '-' date) (removeFirst ':' departureTime)) = .ok response)
    (hfound : response.resultOf (·.Course) = some found)
    (hstations : ∀ c ∈ rankCourses userData.selectedRailway userData.selectedRoute
      (removeFirst ':' arrivalTime) found.toArray,
      ∀ line ∈ c.2.Route.Line, line.Station ≠ []) :
    ∃ results,
      fetchTimeConsumingRoutes api userData = .ok results ∧
      List.Forall₂
        (fun course result =>
          renderCourse (sortCourses (filterCourses userData.selectedRailway
            userData.selectedRoute (removeFirst ':' arrivalTime) found.toArray.enum))
            course = .ok result)
        (rankCourses userData.selectedRailway userData.selectedRoute
          (removeFirst ':' arrivalTime) found.toArray)
        results := by
  obtain ⟨results, hresults⟩ := renderCourses_ok
    (sortCourses (filterCourses userData.selectedRailway userData.selectedRoute
      (removeFirst ':' arrivalTime) found.toArray.enum)) _ hstations
  have htry : fetchTimeConsumingRoutesTry api userData = .ok results := by
    rw [fetchTimeConsumingRoutesTry_of_answer api userData departureStationCode
      destinationStationCode date departureTime arrivalTime hdeparture hdestination hdate
      hdepartureTime harrivalTime, hsearch]
    simp only []
    rw [resultsOfResponse_found _ _ _ _ found hfound, hresults]
  exact ⟨results, by simp [fetchTimeConsumingRoutes, htry],
    renderCourses_eq_ok _ _ _ hresults⟩

end Ekispert

theorem Ekispert.forall₂_getElem?_right {α β : Type} (R : α → β → Prop) (l : List α)
    (r : List β) (h : List.Forall₂ R l r) (i : Nat) (b : β) (hi : r[i]? = some b) :
    ∃ a, l[i]? = some a ∧ R a b := by
  induction h generalizing i with
  | nil => simp at hi
  | cons hab _ ih =>
    cases i with
    | zero =>
      simp only [List.getElem?_cons_zero, Option.some.injEq] at hi
      subst hi
      exact ⟨_, by simp, hab⟩
    | succ j =>
      simp only [List.getElem?_cons_succ] at hi
      simpa using ih j hi

/-- C14 as stated fails: for an answer of the search whose one candidate passes the filter
and has a segment without stations, rendering throws and `fetchTimeConsumingRoutes` returns
the fallback entry, whose title is `ルート例: 東京→横浜` and carries no rank. -/
theorem stationless_segment_gives_unranked_title :
    Ekispert.rankCourses (some "X") (some "Y") "1800" [stationlessCourse] =
      [(0, stationlessCourse)] ∧
    Ekispert.fetchTimeConsumingRoutes (sampleApi (.ok (candidateList [stationlessCourse])))
        sampleUserData =
      .ok [{ title := "ルート例: 東京→横浜",
             description := "申し訳ありませんが、指定された条件での経路検索に失敗しました。",
             details := "APIエラー: " ++ (JsError.typeError "Name").message }] ∧
    "ルート例: 東京→横浜" ≠ "ルート1: 東京→横浜" := by
  refine ⟨by decide, rfl, by decide⟩

/-- C14, amended: when every segment of every kept candidate has a station, so that rendering
does not throw, the results of `fetchTimeConsumingRoutes` are numbered by final
position: there are as many results as kept candidates, at most 3, and the title of the
result at position i (counted from 0) is `ルート` followed by i + 1, a colon and the names of
the departure and arrival stations of the kept candidate at that position, also when kept
candidates are equal in every attribute. -/
theorem titles_carry_rank (api : Api) (userData : UserData)
    (departureStationCode destinationStationCode date departureTime arrivalTime : String)
    (response : Response CourseResultSet) (found : OneOrMany Course)
    (hdeparture : Ekispert.getStationCode api userData.departure = .ok departureStationCode)
    (hdestination :
      Ekispert.getStationCode api userData.destination = .ok destinationStationCode)
    (hdate : userData.date = some date)
    (hdepartureTime : userData.departureTime = some departureTime)
    (harrivalTime : userData.arrivalTime = some arrivalTime)
    (hsearch : api.search (Ekispert.searchParams api departureStationCode
      destinationStationCode (Ekispert.removeAll '-' date)
      (Ekispert.removeFirst ':' departureTime)) = .ok response)
    (hfound : response.resultOf (·.Course) = some found)
    (hstations : ∀ c ∈ Ekispert.rankCourses userData.selectedRailway userData.selectedRoute
      (Ekispert.removeFirst ':' arrivalTime) found.toArray,
      ∀ line ∈ c.2.Route.Line, line.Station ≠ []) :
    ∃ results,
      Ekispert.fetchTimeConsumingRoutes api userData = .ok results ∧
      results.length = (Ekispert.rankCourses userData.selectedRailway
        userData.selectedRoute (Ekispert.removeFirst ':' arrivalTime)
        found.toArray).length ∧
      results.length ≤ 3 ∧
      ∀ i result, results[i]? = some result →
        ∃ course,
          (Ekispert.rankCourses userData.selectedRailway userData.selectedRoute
            (Ekispert.removeFirst ':' arrivalTime) found.toArray)[i]? = some course ∧
          result.title = "ルート" ++ toString (i + 1) ++ ": " ++
            course.2.Route.Departure.Station.Name ++ "→" ++
            course.2.Route.Arrival.Station.Name := by
  obtain ⟨results, hfetch, hall⟩ := Ekispert.success_path_results api userData
    departureStationCode destinationStationCode date departureTime arrivalTime response found
    hdeparture hdestination hdate hdepartureTime harrivalTime hsearch hfound hstations
  have hlen := hall.length_eq
  refine ⟨results, hfetch, hlen.symm, ?_, ?_⟩
  · rw [← hlen]
    simp only [Ekispert.rankCourses, slice, List.length_take]
    exact Nat.min_le_left _ _
  · intro i result hresult
    obtain ⟨course, hcourse, hrender⟩ :=
      Ekispert.forall₂_getElem?_right _ _ _ hall i result hresult
    refine ⟨course, hcourse, ?_⟩
    have hsorted := Ekispert.getElem?_of_slice _ 3 i course hcourse
    rw [Ekispert.renderCourse_title _ _ _ hrender,
      Ekispert.indexOf_of_nodup_refs _ i course
        (Ekispert.nodup_refs_sorted _ _ _ found.toArray) hsorted,
      Ekispert.toString_rank]

/-- C14 amended, on an answer with three candidates equal in every attribute: the titles carry the
ranks 1, 2 and 3. -/
theorem titles_carry_rank_witness :
    ∃ results,
      Ekispert.fetchTimeConsumingRoutes
        (sampleApi (.ok (candidateList threeEqualCandidates))) sampleUserData =
        .ok results ∧
      results.map (·.title) =
        ["ルート1: 東京→横浜", "ルート2: 東京→横浜", "ルート3: 東京→横浜"] := by
  obtain ⟨results, h, -⟩ := titles_carry_rank
    (sampleApi (.ok (candidateList threeEqualCandidates))) sampleUserData "22828" "22828"
    "2023-03-08" "10:00" "18:00" (candidateList threeEqualCandidates)
    (.many threeEqualCandidates) rfl rfl rfl rfl rfl rfl rfl (by decide)
  refine ⟨results, h, ?_⟩
  have h3 : (match Ekispert.fetchTimeConsumingRoutes
      (sampleApi (.ok (candidateList threeEqualCandidates))) sampleUserData with
      | .ok r => r.map (·.title)
      | .error _ => []) =
      ["ルート1: 東京→横浜", "ルート2: 東京→横浜", "ルート3: 東京→横浜"] := rfl
  rw [h] at h3
  exact h3

/-- C15: for a kept candidate whose segments each have at least one station, the details of
its result are the pieces of its segments, in segment order, joined by an arrow, one piece
per segment; the piece of a segment is its first station, the line name in brackets, an
arrow and its last station. -/
theorem details_join_segments (sortedCourses : List Ekispert.CourseRef)
    (course : Ekispert.CourseRef)
    (hstations : ∀ line ∈ course.2.Route.Line, line.Station ≠ []) :
    ∃ result pieces,
      Ekispert.renderCourse sortedCourses course = .ok result ∧
      result.details = " → ".intercalate pieces ∧
      pieces.length = course.2.Route.Line.length ∧
      List.Forall₂
        (fun line piece => ∃ first last,
          line.Station.head? = some first ∧ line.Station.getLast? = some last ∧
          piece = first.Name ++ " [" ++ line.Name ++ "] → " ++ last.Name)
        course.2.Route.Line pieces := by
  obtain ⟨pieces, hpieces, hall⟩ := Ekispert.segmentTexts_pieces _ hstations
  obtain ⟨result, hresult⟩ := Ekispert.renderCourse_ok sortedCourses course hstations
  refine ⟨result, pieces, hresult, ?_, hall.length_eq.symm, hall⟩
  simp only [Ekispert.renderCourse, Ekispert.routeDetails, hpieces, Except.ok.injEq]
    at hresult
  rw [← hresult]

/-- C15, on a candidate of two segments, 東京 to 品川 on line Y and 品川 to 横浜 on line K. -/
theorem details_join_segments_witness :
    Ekispert.routeDetails twoSegmentCourse.2.Route.Line =
      .ok "東京 [Y] → 品川 → 品川 [K] → 横浜" ∧
    ∃ result pieces,
      Ekispert.renderCourse [twoSegmentCourse] twoSegmentCourse = .ok result ∧
      result.details = " → ".intercalate pieces ∧
      pieces.length = twoSegmentCourse.2.Route.Line.length ∧
      List.Forall₂
        (fun line piece => ∃ first last,
          line.Station.head? = some first ∧ line.Station.getLast? = some last ∧
          piece = first.Name ++ " [" ++ line.Name ++ "] → " ++ last.Name)
        twoSegmentCourse.2.Route.Line pieces :=
  ⟨rfl, details_join_segments [twoSegmentCourse] twoSegmentCourse (by decide)⟩

/-! ## The compact date and times, and their comparison -/

namespace Ekispert

theorem digit_bounds (c : Char) (h : c.isDigit = true) : 48 ≤ c.toNat ∧ c.toNat ≤ 57 := by
  unfold Char.isDigit at h
  simp only [Bool.and_eq_true, decide_eq_true_eq, ge_iff_le] at h
  obtain ⟨h1, h2⟩ := h
  rw [UInt32.le_def] at h1 h2
  exact ⟨h1, h2⟩

theorem toList_append (a b : String) : (a ++ b).toList = a.toList ++ b.toList := rfl

theorem isDigits_append (m n : Nat) (a b : String) (ha : IsDigits m a) (hb : IsDigits n b) :
    IsDigits (m + n) (a ++ b) := by
  obtain ⟨ha1, ha2⟩ := ha
  obtain ⟨hb1, hb2⟩ := hb
  refine ⟨by simp [ha1, hb1], ?_⟩
  intro c hc
  simp only [toList_append, List.mem_append] at hc
  rcases hc with hc | hc
  · exact ha2 c hc
  · exact hb2 c hc

theorem not_mem_of_digits (n : Nat) (s : String) (c : Char) (hs : IsDigits n s)
    (hc : c.isDigit = false) : c ∉ s.toList := by
  intro hmem
  rw [hs.2 c hmem] at hc
  cases hc

theorem removeAll_append (c : Char) (a b : String) :
    removeAll c (a ++ b) = removeAll c a ++ removeAll c b := by
  simp only [removeAll, toList_append, List.filter_append]
  rfl

theorem removeAll_of_not_mem (c : Char) (s : String) (h : c ∉ s.toList) :
    removeAll c s = s := by
  unfold removeAll
  have hfilter : s.toList.filter (· ≠ c) = s.toList := by
    rw [List.filter_eq_self]
    intro x hx
    simp only [ne_eq, decide_eq_true_eq]
    rintro rfl
    exact h hx
  rw [hfilter]
  rfl

theorem removeAll_date (year month day : String) (hyear : '-' ∉ year.toList)
    (hmonth : '-' ∉ month.toList) (hday : '-' ∉ day.toList) :
    removeAll '-' (year ++ "-" ++ month ++ "-" ++ day) = year ++ month ++ day := by
  rw [removeAll_append, removeAll_append, removeAll_append, removeAll_append,
    removeAll_of_not_mem _ _ hyear, removeAll_of_not_mem _ _ hmonth,
    removeAll_of_not_mem _ _ hday]
  have hdash : removeAll '-' "-" = "" := by decide
  rw [hdash]
  simp

theorem removeFirst_time (hour minute : String) (hhour : ':' ∉ hour.toList) :
    removeFirst ':' (hour ++ ":" ++ minute) = hour ++ minute := by
  unfold removeFirst
  have hlist : (hour ++ ":" ++ minute).toList = hour.toList ++ (':' :: minute.toList) := by
    simp
  rw [hlist, List.erase_append_right _ hhour, List.erase_cons_head]
  rfl

theorem eq_of_four (s : String) (h : s.length = 4) :
    ∃ c1 c2 c3 c4, s = String.mk [c1, c2, c3, c4] := by
  obtain ⟨l⟩ := s
  simp only [String.length] at h
  match l, h with
  | [c1, c2, c3, c4], _ => exact ⟨c1, c2, c3, c4, rfl⟩

theorem strLe_digits (a b : String) (ha : IsDigits 4 a) (hb : IsDigits 4 b) :
    strLe a b = true ↔ digitsValue a ≤ digitsValue b := by
  obtain ⟨ha1, ha2⟩ := ha
  obtain ⟨hb1, hb2⟩ := hb
  obtain ⟨a1, a2, a3, a4, rfl⟩ := eq_of_four a ha1
  obtain ⟨b1, b2, b3, b4, rfl⟩ := eq_of_four b hb1
  obtain ⟨la1, ua1⟩ := digit_bounds a1 (ha2 a1 (by simp))
  obtain ⟨la2, ua2⟩ := digit_bounds a2 (ha2 a2 (by simp))
  obtain ⟨la3, ua3⟩ := digit_bounds a3 (ha2 a3 (by simp))
  obtain ⟨la4, ua4⟩ := digit_bounds a4 (ha2 a4 (by simp))
  obtain ⟨lb1, ub1⟩ := digit_bounds b1 (hb2 b1 (by simp))
  obtain ⟨lb2, ub2⟩ := digit_bounds b2 (hb2 b2 (by simp))
  obtain ⟨lb3, ub3⟩ := digit_bounds b3 (hb2 b3 (by simp))
  obtain ⟨lb4, ub4⟩ := digit_bounds b4 (hb2 b4 (by simp))
  have fa1 : a1.toNat < 0x10000 := by omega
  have fa2 : a2.toNat < 0x10000 := by omega
  have fa3 : a3.toNat < 0x10000 := by omega
  have fa4 : a4.toNat < 0x10000 := by omega
  have fb1 : b1.toNat < 0x10000 := by omega
  have fb2 : b2.toNat < 0x10000 := by omega
  have fb3 : b3.toNat < 0x10000 := by omega
  have fb4 : b4.toNat < 0x10000 := by omega
  simp only [strLe, codeUnits, String.toList, List.flatMap_cons, List.flatMap_nil, fa1, fa2,
    fa3, fa4, fb1, fb2, fb3, fb4, if_true, List.singleton_append, List.append_nil, unitsLe,
    digitsValue, List.foldl_cons, List.foldl_nil]
  split_ifs <;> simp <;> omega

end Ekispert

/-- C18: for a date in the prompted form YYYY-MM-DD and times in the prompted form HH:MM, the
search is called with the 8-digit date YYYYMMDD and the 4-digit time HHMM, and the arrival
bound handed to the filter is the 4-digit HHMM of the arrival time. -/
theorem search_parameters_are_compact (api : Api) (userData : UserData)
    (departureStationCode destinationStationCode : String)
    (year month day hour minute arrivalHour arrivalMinute : String)
    (hyear : IsDigits 4 year) (hmonth : IsDigits 2 month) (hday : IsDigits 2 day)
    (hhour : IsDigits 2 hour) (hminute : IsDigits 2 minute)
    (harrivalHour : IsDigits 2 arrivalHour) (harrivalMinute : IsDigits 2 arrivalMinute)
    (hdeparture : Ekispert.getStationCode api userData.departure = .ok departureStationCode)
    (hdestination :
      Ekispert.getStationCode api userData.destination = .ok destinationStationCode)
    (hdate : userData.date = some (year ++ "-" ++ month ++ "-" ++ day))
    (hdepartureTime : userData.departureTime = some (hour ++ ":" ++ minute))
    (harrivalTime : userData.arrivalTime = some (arrivalHour ++ ":" ++ arrivalMinute)) :
    Ekispert.fetchTimeConsumingRoutesTry api userData =
      (match api.search (Ekispert.searchParams api departureStationCode
          destinationStationCode (year ++ month ++ day) (hour ++ minute)) with
       | .error error => .error error
       | .ok response =>
         Ekispert.resultsOfResponse userData.selectedRailway userData.selectedRoute
           (arrivalHour ++ arrivalMinute) response) ∧
    (Ekispert.searchParams api departureStationCode destinationStationCode
      (year ++ month ++ day) (hour ++ minute)).date = year ++ month ++ day ∧
    (Ekispert.searchParams api departureStationCode destinationStationCode
      (year ++ month ++ day) (hour ++ minute)).time = hour ++ minute ∧
    IsDigits 8 (year ++ month ++ day) ∧
    IsDigits 4 (hour ++ minute) ∧
    IsDigits 4 (arrivalHour ++ arrivalMinute) := by
  refine ⟨?_, rfl, rfl,
    Ekispert.isDigits_append 6 2 _ _ (Ekispert.isDigits_append 4 2 _ _ hyear hmonth) hday,
    Ekispert.isDigits_append 2 2 _ _ hhour hminute,
    Ekispert.isDigits_append 2 2 _ _ harrivalHour harrivalMinute⟩
  rw [Ekispert.fetchTimeConsumingRoutesTry_of_answer api userData departureStationCode
    destinationStationCode _ _ _ hdeparture hdestination hdate hdepartureTime harrivalTime,
    Ekispert.removeAll_date year month day
      (Ekispert.not_mem_of_digits 4 year '-' hyear (by decide))
      (Ekispert.not_mem_of_digits 2 month '-' hmonth (by decide))
      (Ekispert.not_mem_of_digits 2 day '-' hday (by decide)),
    Ekispert.removeFirst_time hour minute
      (Ekispert.not_mem_of_digits 2 hour ':' hhour (by decide)),
    Ekispert.removeFirst_time arrivalHour arrivalMinute
      (Ekispert.not_mem_of_digits 2 arrivalHour ':' harrivalHour (by decide))]

/-- C18, on the date 2023-03-08 and the times 10:00 and 18:00. -/
theorem search_parameters_are_compact_witness :
    Ekispert.removeAll '-' "2023-03-08" = "20230308" ∧
    Ekispert.removeFirst ':' "10:00" = "1000" ∧
    Ekispert.removeFirst ':' "18:00" = "1800" ∧
    IsDigits 8 ("2023" ++ "03" ++ "08") ∧
    IsDigits 4 ("10" ++ "00") ∧
    IsDigits 4 ("18" ++ "00") :=
  ⟨by decide, by decide, by decide,
   (search_parameters_are_compact (sampleApi (.ok noCandidateList)) sampleUserData "22828"
      "22828" "2023" "03" "08" "10" "00" "18" "00" ⟨rfl, by decide⟩ ⟨rfl, by decide⟩
      ⟨rfl, by decide⟩ ⟨rfl, by decide⟩ ⟨rfl, by decide⟩ ⟨rfl, by decide⟩ ⟨rfl, by decide⟩
      rfl rfl rfl rfl rfl).2.2.2⟩

/-- C19: when the arrival time of a candidate and the arrival bound are both strings of four
decimal digits, the comparison of the filter holds exactly when the arrival time, read as a
number, is at most the bound read as a number. -/
theorem arrival_comparison_is_numeric (arrivalTime : String) (course : Course)
    (htime : IsDigits 4 course.Route.Arrival.Time) (hbound : IsDigits 4 arrivalTime) :
    Ekispert.isWithinTimeRange arrivalTime course = true ↔
      digitsValue course.Route.Arrival.Time ≤ digitsValue arrivalTime := by
  unfold Ekispert.isWithinTimeRange
  exact Ekispert.strLe_digits _ _ htime hbound

/-- C19, on a candidate arriving at 17:30 with the bound 18:00, and on one arriving at 18:30. -/
theorem arrival_comparison_is_numeric_witness :
    Ekispert.isWithinTimeRange "1800" (sampleCourse "X" "Y" "1730" none) = true ∧
    digitsValue "1730" = 1730 ∧ digitsValue "1800" = 1800 ∧
    Ekispert.isWithinTimeRange "1800" (sampleCourse "X" "Y" "1830" none) = false :=
  ⟨(arrival_comparison_is_numeric "1800" (sampleCourse "X" "Y" "1730" none)
      ⟨rfl, by decide⟩ ⟨rfl, by decide⟩).mpr (by decide),
   by decide, by decide, by decide⟩

/-! ## The full cycle -/

/-- C2: after the start keyword and seven answers, none of them the start keyword, when the
operator listing called at the fifth answer and the line listing called at the sixth answer
succeed, the states after the successive messages are INPUT_DEPARTURE, INPUT_DESTINATION,
INPUT_DATE, INPUT_DEPARTURE_TIME, INPUT_ARRIVAL_TIME, SELECT_RAILWAY, SELECT_ROUTE and
IDLE, whatever the session was before and whatever the answers contain. -/
theorem full_cycle_visits_states_in_order (svc : Services) (s : Session)
    (a1 a2 a3 a4 a5 a6 a7 : String)
    (hanswers : ∀ a ∈ [a1, a2, a3, a4, a5, a6, a7], a ≠ "出発")
    (railways routes : List Railway)
    (hrailways : svc.fetchAvailableRailways
      { departure := some a1, destination := some a2, date := some a3,
        departureTime := some a4, arrivalTime := some a5 } = .ok railways)
    (hroutes : svc.fetchRoutesByRailway a6 = .ok routes) :
    (sessionsAfter svc s ["出発", a1, a2, a3, a4, a5, a6, a7]).map (·.state) =
      [STATE.INPUT_DEPARTURE, STATE.INPUT_DESTINATION, STATE.INPUT_DATE,
       STATE.INPUT_DEPARTURE_TIME, STATE.INPUT_ARRIVAL_TIME, STATE.SELECT_RAILWAY,
       STATE.SELECT_ROUTE, STATE.IDLE] := by
  have h1 : a1 ≠ "出発" := hanswers a1 (by simp)
  have h2 : a2 ≠ "出発" := hanswers a2 (by simp)
  have h3 : a3 ≠ "出発" := hanswers a3 (by simp)
  have h4 : a4 ≠ "出発" := hanswers a4 (by simp)
  have h5 : a5 ≠ "出発" := hanswers a5 (by simp)
  have h6 : a6 ≠ "出発" := hanswers a6 (by simp)
  have h7 : a7 ≠ "出発" := hanswers a7 (by simp)
  have e0 : (processUserInput svc s "出発").1 =
      { state := STATE.INPUT_DEPARTURE, data := {} } := by
    rw [processUserInput_start]
  have e1 : (processUserInput svc { state := STATE.INPUT_DEPARTURE, data := {} } a1).1 =
      { state := STATE.INPUT_DESTINATION, data := { departure := some a1 } } := by
    rw [processUserInput_INPUT_DEPARTURE svc _ a1 h1 rfl]
  have e2 : (processUserInput svc
      { state := STATE.INPUT_DESTINATION, data := { departure := some a1 } } a2).1 =
      { state := STATE.INPUT_DATE,
        data := { departure := some a1, destination := some a2 } } := by
    rw [processUserInput_INPUT_DESTINATION svc _ a2 h2 rfl]
  have e3 : (processUserInput svc
      { state := STATE.INPUT_DATE,
        data := { departure := some a1, destination := some a2 } } a3).1 =
      { state := STATE.INPUT_DEPARTURE_TIME,
        data := { departure := some a1, destination := some a2, date := some a3 } } := by
    rw [processUserInput_INPUT_DATE svc _ a3 h3 rfl]
  have e4 : (processUserInput svc
      { state := STATE.INPUT_DEPARTURE_TIME,
        data := { departure := some a1, destination := some a2, date := some a3 } } a4).1 =
      { state := STATE.INPUT_ARRIVAL_TIME,
        data := { departure := some a1, destination := some a2, date := some a3,
                  departureTime := some a4 } } := by
    rw [processUserInput_INPUT_DEPARTURE_TIME svc _ a4 h4 rfl]
  have e5 : (processUserInput svc
      { state := STATE.INPUT_ARRIVAL_TIME,
        data := { departure := some a1, destination := some a2, date := some a3,
                  departureTime := some a4 } } a5).1 =
      { state := STATE.SELECT_RAILWAY,
        data := { departure := some a1, destination := some a2, date := some a3,
                  departureTime := some a4, arrivalTime := some a5 } } := by
    rw [processUserInput_INPUT_ARRIVAL_TIME svc _ a5 h5 rfl]
    simp only []
    rw [hrailways]
  have e6 : (processUserInput svc
      { state := STATE.SELECT_RAILWAY,
        data := { departure := some a1, destination := some a2, date := some a3,
                  departureTime := some a4, arrivalTime := some a5 } } a6).1.state =
      STATE.SELECT_ROUTE :=
    state_after_SELECT_RAILWAY svc _ a6 h6 rfl routes hroutes
  have e7 := state_after_SELECT_ROUTE svc
    (processUserInput svc
      { state := STATE.SELECT_RAILWAY,
        data := { departure := some a1, destination := some a2, date := some a3,
                  departureTime := some a4, arrivalTime := some a5 } } a6).1 a7 h7 e6
  simp only [sessionsAfter, List.map, e0, e1, e2, e3, e4, e5, e6, e7]

/-- C2, with the services of `src/ekispert-api.js` over a routing API that answers every
request, from a fresh session: the operator chosen at the sixth answer is one of the listed
operators, so the line listing succeeds. -/
theorem full_cycle_visits_states_in_order_witness :
    (sessionsAfter (Ekispert.services workingApi) initialSession
        ["出発", "東京", "横浜", "2023-03-08", "10:00", "18:00", "JR東日本", "山手線"]).map
        (·.state) =
      [STATE.INPUT_DEPARTURE, STATE.INPUT_DESTINATION, STATE.INPUT_DATE,
       STATE.INPUT_DEPARTURE_TIME, STATE.INPUT_ARRIVAL_TIME, STATE.SELECT_RAILWAY,
       STATE.SELECT_ROUTE, STATE.IDLE] :=
  full_cycle_visits_states_in_order (Ekispert.services workingApi) initialSession
    "東京" "横浜" "2023-03-08" "10:00" "18:00" "JR東日本" "山手線" (by decide)
    [{ id := "1", name := "JR東日本" }, { id := "2", name := "東京メトロ" },
     { id := "3", name := "東急電鉄" }]
    [{ id := "101", name := "山手線" }, { id := "102", name := "中央線" }] rfl rfl

end TrainLineBot
